import Mathlib

/-!
Formal model (shallow embedding) of the pointer/cursor presentation controller
implemented in `libs/input/PointerController.cpp`.

Modelling conventions:
* C++ `float` values (positions, alpha levels, scales) are embedded as exact
  rationals (`ℚ`); the arithmetic performed by the controller is plain affine
  arithmetic, which the embedding mirrors operation for operation.
* `nsecs_t` timestamps are embedded as `ℤ` (nanoseconds).
* All side effects on collaborators (the `Sprite` rendering handles, the
  `SpriteController` transaction bracket, the `Looper` message queue and the
  vsync receiver) are recorded in an explicit, append-only event trace carried
  in the controller state.  Reads of the monotonic clock are supplied as an
  explicit `now` argument to every operation that can consult it.
* The per-display spot map (`std::map<int32_t, std::vector<Spot*>>`) is an
  association list, and the icon resource maps are association lists as well.
-/

namespace PointerController

/-- Identity token for a loaded icon bitmap (stands for a `SpriteIcon` value;
the controller never inspects bitmap contents, only identity). -/
abbrev SpriteIcon := Nat

/-- Display orientation constants `DISPLAY_ORIENTATION_{0,90,180,270}`. -/
inductive Rotation
  | rot0
  | rot90
  | rot180
  | rot270
deriving DecidableEq

/-- The viewport descriptor fields consumed by `PointerController`:
display identity, rotation, logical bounds and (rotation-adjusted) device
size.  Equality of descriptors is field-wise, as for C++ `operator==`. -/
structure DisplayViewport where
  displayId : Int
  orientation : Rotation
  logicalLeft : Int
  logicalTop : Int
  logicalRight : Int
  logicalBottom : Int
  deviceWidth : Int
  deviceHeight : Int
deriving DecidableEq

/-- Modelled from the spec: `DisplayViewport::isValid` is declared in a header
that is not under `src/`.  The spec states the viewport is "invalid until
first set"; the display identifier carries a negative sentinel until a real
viewport is installed, and validity is exactly "the display identifier is a
real (non-negative) display". -/
def DisplayViewport.isValid (v : DisplayViewport) : Bool := v.displayId ≥ 0

/-- The default-constructed (never set, hence invalid) viewport. -/
def DisplayViewport.invalid : DisplayViewport :=
  { displayId := -1
    orientation := .rot0
    logicalLeft := 0
    logicalTop := 0
    logicalRight := 0
    logicalBottom := 0
    deviceWidth := 0
    deviceHeight := 0 }

/-- `PointerControllerInterface::Presentation`. -/
inductive Presentation
  | POINTER
  | SPOT
deriving DecidableEq

/-- `PointerControllerInterface::Transition`. -/
inductive Transition
  | IMMEDIATE
  | GRADUAL
deriving DecidableEq

/-- `PointerControllerInterface::InactivityTimeout`. -/
inductive InactivityTimeout
  | NORMAL
  | SHORT
deriving DecidableEq

/-- Time to spend fading out the pointer completely (500 ms, in ns). -/
def POINTER_FADE_DURATION : Int := 500000000

/-- Time to spend fading out a spot completely (200 ms, in ns). -/
def SPOT_FADE_DURATION : Int := 200000000

/-- Inactivity delay before the automatic fade, normal flavour (15 s, in ns). -/
def INACTIVITY_TIMEOUT_DELAY_TIME_NORMAL : Int := 15000000000

/-- Inactivity delay before the automatic fade, short flavour (3 s, in ns). -/
def INACTIVITY_TIMEOUT_DELAY_TIME_SHORT : Int := 3000000000

/-- Modelled from the spec: `MAX_SPOTS` is declared in `PointerController.h`,
which is not under `src/`.  The spec gives the per-display live-spot cap as
"small, e.g. 12". -/
def MAX_SPOTS : Nat := 12

/-- Modelled from the spec: `MAX_RECYCLED_SPRITES` is declared in
`PointerController.h`, which is not under `src/`.  The spec describes the
sprite pool as a bounded recycling cache; its capacity constant matches the
spot cap. -/
def MAX_RECYCLED_SPRITES : Nat := 12

/-- Modelled from the spec: `Sprite::BASE_LAYER_POINTER` lives in
`SpriteController.h`, not under `src/`.  The numeric value is an opaque
depth-layer tag and is irrelevant to every claim. -/
def BASE_LAYER_POINTER : Int := 1

/-- Modelled from the spec: `Sprite::BASE_LAYER_SPOT`, an opaque depth-layer
tag (see `BASE_LAYER_POINTER`). -/
def BASE_LAYER_SPOT : Int := 2

/-- One multi-touch spot indicator (`PointerController::Spot`). -/
structure Spot where
  id : Nat
  sprite : Nat
  alpha : ℚ
  scale : ℚ
  x : ℚ
  y : ℚ
  lastIcon : Option SpriteIcon
deriving DecidableEq, Inhabited

/-- `Spot::INVALID_ID` : the `uint32_t` sentinel `0xFFFFFFFF` marking a spot
as detached and fading out. -/
def Spot.INVALID_ID : Nat := 4294967295

/-- Modelled from the spec: the `Spot` constructor is declared in
`PointerController.h`, not under `src/`.  Per the spec, a freshly created
spot starts at alpha 1.0 with a constant scale factor, owning the given
rendering handle. -/
def Spot.make (id : Nat) (sprite : Nat) : Spot :=
  { id := id, sprite := sprite, alpha := 1, scale := 1, x := 0, y := 0, lastIcon := none }

/-- The `PointerResources` bundle filled in by the policy. -/
structure PointerResources where
  spotHover : SpriteIcon
  spotTouch : SpriteIcon
  spotAnchor : SpriteIcon
deriving DecidableEq, Inhabited

/-- A multi-frame icon animation resource (`PointerAnimation`). -/
structure PointerAnimation where
  animationFrames : List SpriteIcon
  durationPerFrame : Int
deriving DecidableEq

/-- The policy collaborator (`PointerControllerPolicyInterface`): synchronous
resource supplier, fixed for the lifetime of a controller. -/
structure Policy where
  defaultPointerIconId : Int
  customPointerIconId : Int
  pointerIconFor : Int → SpriteIcon
  pointerResourcesFor : Int → PointerResources
  additionalMouseResourcesFor : Int → List (Int × SpriteIcon)
  animationResourcesFor : Int → List (Int × PointerAnimation)

/-- Observable side effects on the rendering handles, the transaction
bracket, the vsync receiver and the looper message queue. -/
inductive Ev
  | openTransaction
  | closeTransaction
  | spriteLayer (sprite : Nat) (layer : Int)
  | spritePos (sprite : Nat) (x y : ℚ)
  | spriteDisplay (sprite : Nat) (displayId : Int)
  | spriteAlpha (sprite : Nat) (alpha : ℚ)
  | spriteVisible (sprite : Nat) (visible : Bool)
  | spriteIcon (sprite : Nat) (icon : SpriteIcon)
  | spriteClearIcon (sprite : Nat)
  | spriteMatrix (sprite : Nat) (scale : ℚ)
  | requestVsync
  | removeTimeoutMessages
  | sendTimeoutMessage (delay : Int)
  | warnMissingIcon (iconId : Int)
deriving DecidableEq

/-- The whole `mLocked` state aggregate of one `PointerController`, together
with the sprite-allocation counter and the observable event trace. -/
structure Controller where
  viewport : DisplayViewport
  presentation : Presentation
  presentationChanged : Bool
  pointerFadeDirection : Int
  pointerX : ℚ
  pointerY : ℚ
  pointerAlpha : ℚ
  pointerSprite : Nat
  pointerIcon : SpriteIcon
  pointerIconChanged : Bool
  requestedPointerType : Int
  additionalMouseResources : List (Int × SpriteIcon)
  animationResources : List (Int × PointerAnimation)
  animationFrameIndex : Int
  lastFrameUpdatedTime : Int
  animationPending : Bool
  animationTime : Int
  inactivityTimeout : InactivityTimeout
  buttonState : Int
  resources : PointerResources
  spotsByDisplay : List (Int × List Spot)
  recycledSprites : List Nat
  nextSpriteId : Nat
  events : List Ev
deriving DecidableEq

/-- Append one observable event to the trace. -/
def pushEv (s : Controller) (e : Ev) : Controller :=
  { s with events := s.events ++ [e] }

/-- Append several observable events to the trace. -/
def pushEvs (s : Controller) (l : List Ev) : Controller :=
  { s with events := s.events ++ l }

/-- The events a call appended to the trace (the trace is append-only). -/
def newEvents (s t : Controller) : List Ev :=
  t.events.drop s.events.length

/-- `std::map::find` on an association list. -/
def lookupRes {α : Type} (k : Int) : List (Int × α) → Option α
  | [] => none
  | (k', v) :: rest => if k' = k then some v else lookupRes k rest

/-- `std::map::operator[] = v` on an association list. -/
def insertRes {α : Type} (k : Int) (v : α) : List (Int × α) → List (Int × α)
  | [] => [(k, v)]
  | (k', v') :: rest => if k' = k then (k, v) :: rest else (k', v') :: insertRes k v rest

/-- `PointerController::startAnimationLocked`: arm a one-shot vsync request
unless one is already pending, recording the arm time. -/
def startAnimationLocked (now : Int) (s : Controller) : Controller :=
  if s.animationPending then s
  else
    { s with
      animationPending := true
      animationTime := now
      events := s.events ++ [Ev.requestVsync] }

/-- `PointerController::removeInactivityTimeoutLocked`. -/
def removeInactivityTimeoutLocked (s : Controller) : Controller :=
  pushEv s Ev.removeTimeoutMessages

/-- `PointerController::resetInactivityTimeoutLocked`. -/
def resetInactivityTimeoutLocked (s : Controller) : Controller :=
  let timeout :=
    if s.inactivityTimeout = InactivityTimeout.SHORT then INACTIVITY_TIMEOUT_DELAY_TIME_SHORT
    else INACTIVITY_TIMEOUT_DELAY_TIME_NORMAL
  pushEvs s [Ev.removeTimeoutMessages, Ev.sendTimeoutMessage timeout]

/-- `PointerController::loadResourcesLocked`. -/
def loadResourcesLocked (P : Policy) (s : Controller) : Controller :=
  if s.viewport.isValid = false then s
  else
    let d := s.viewport.displayId
    { s with
      resources := P.pointerResourcesFor d
      pointerIcon := P.pointerIconFor d
      additionalMouseResources :=
        if s.presentation = Presentation.POINTER then P.additionalMouseResourcesFor d else []
      animationResources :=
        if s.presentation = Presentation.POINTER then P.animationResourcesFor d else []
      pointerIconChanged := true }

/-- The sprite mutations `PointerController::updatePointerLocked` issues
inside its transaction bracket, in program order.  The `requestVsync` entry
appears exactly when the animated-icon branch re-arms the animation loop. -/
def updatePointerEvents (P : Policy) (s : Controller) : List Ev :=
  let ps := s.pointerSprite
  [Ev.openTransaction,
   Ev.spriteLayer ps BASE_LAYER_POINTER,
   Ev.spritePos ps s.pointerX s.pointerY,
   Ev.spriteDisplay ps s.viewport.displayId]
  ++ (if s.pointerAlpha > 0 then
        [Ev.spriteAlpha ps s.pointerAlpha, Ev.spriteVisible ps true]
      else [Ev.spriteVisible ps false])
  ++ (if s.pointerIconChanged || s.presentationChanged then
        if s.presentation = Presentation.POINTER then
          if s.requestedPointerType = P.defaultPointerIconId then
            [Ev.spriteIcon ps s.pointerIcon]
          else
            match lookupRes s.requestedPointerType s.additionalMouseResources with
            | some ic =>
                (match lookupRes s.requestedPointerType s.animationResources with
                 | some _ => if s.animationPending then [] else [Ev.requestVsync]
                 | none => [])
                ++ [Ev.spriteIcon ps ic]
            | none =>
                [Ev.warnMissingIcon s.requestedPointerType, Ev.spriteIcon ps s.pointerIcon]
        else [Ev.spriteIcon ps s.resources.spotAnchor]
      else [])
  ++ [Ev.closeTransaction]

/-- Whether `updatePointerLocked` takes the animated-icon branch (icon or
presentation changed, POINTER presentation, a non-default requested icon that
resolves in the additional-icon table and maps to an animation resource);
that branch resets the frame cursor and re-arms the animation loop. -/
def updatePointerArmsAnimation (P : Policy) (s : Controller) : Bool :=
  (s.pointerIconChanged || s.presentationChanged)
  && (match s.presentation with
      | Presentation.POINTER => true
      | Presentation.SPOT => false)
  && !(s.requestedPointerType == P.defaultPointerIconId)
  && (lookupRes s.requestedPointerType s.additionalMouseResources).isSome
  && (lookupRes s.requestedPointerType s.animationResources).isSome

/-- `PointerController::updatePointerLocked`: no-op while the viewport is
invalid; otherwise pushes the pointer sprite state inside one transaction,
resolving the requested icon (falling back to the default icon with a warning
when it is unresolvable), clears the dirty flags, and — when the resolved
icon is a multi-frame animation — resets the animation cursor and arms the
animation loop. -/
def updatePointerLocked (P : Policy) (now : Int) (s : Controller) : Controller :=
  if s.viewport.isValid = false then s
  else
    let arm := updatePointerArmsAnimation P s
    { s with
      events := s.events ++ updatePointerEvents P s
      pointerIconChanged := false
      presentationChanged := false
      animationFrameIndex := if arm then 0 else s.animationFrameIndex
      lastFrameUpdatedTime := if arm then now else s.lastFrameUpdatedTime
      animationPending := if arm && !s.animationPending then true else s.animationPending
      animationTime := if arm && !s.animationPending then now else s.animationTime }

/-- `PointerController::getBoundsLocked`: `(minX, minY, maxX, maxY)` of the
active viewport, or `none` when no valid viewport is set. -/
def getBoundsLocked (s : Controller) : Option (ℚ × ℚ × ℚ × ℚ) :=
  if s.viewport.isValid then
    some ((s.viewport.logicalLeft : ℚ), (s.viewport.logicalTop : ℚ),
          (s.viewport.logicalRight : ℚ) - 1, (s.viewport.logicalBottom : ℚ) - 1)
  else none

/-- `PointerController::setPositionLocked`: clamp to the viewport bounds and
push; silent no-op while no valid viewport is set. -/
def setPositionLocked (P : Policy) (now : Int) (x y : ℚ) (s : Controller) : Controller :=
  match getBoundsLocked s with
  | none => s
  | some (minX, minY, maxX, maxY) =>
    let px := if x ≤ minX then minX else if x ≥ maxX then maxX else x
    let py := if y ≤ minY then minY else if y ≥ maxY then maxY else y
    updatePointerLocked P now { s with pointerX := px, pointerY := py }

/-- `PointerController::setPosition`. -/
def setPosition (P : Policy) (now : Int) (x y : ℚ) (s : Controller) : Controller :=
  setPositionLocked P now x y s

/-- `PointerController::move`: early-returns on a zero delta, else routes
through the same clamping-and-push step as `setPosition`. -/
def move (P : Policy) (now : Int) (deltaX deltaY : ℚ) (s : Controller) : Controller :=
  if deltaX = 0 ∧ deltaY = 0 then s
  else setPositionLocked P now (s.pointerX + deltaX) (s.pointerY + deltaY) s

/-- `PointerController::setButtonState`. -/
def setButtonState (buttonState : Int) (s : Controller) : Controller :=
  if s.buttonState ≠ buttonState then { s with buttonState := buttonState } else s

/-- `PointerController::fade`. -/
def fade (P : Policy) (now : Int) (transition : Transition) (s : Controller) : Controller :=
  let s := removeInactivityTimeoutLocked s
  if transition = Transition.IMMEDIATE then
    updatePointerLocked P now { s with pointerFadeDirection := 0, pointerAlpha := 0 }
  else
    startAnimationLocked now { s with pointerFadeDirection := -1 }

/-- `PointerController::unfade`. -/
def unfade (P : Policy) (now : Int) (transition : Transition) (s : Controller) : Controller :=
  let s := resetInactivityTimeoutLocked s
  if transition = Transition.IMMEDIATE then
    updatePointerLocked P now { s with pointerFadeDirection := 0, pointerAlpha := 1 }
  else
    startAnimationLocked now { s with pointerFadeDirection := 1 }

/-- `PointerController::getSpot`: linear lookup by id within one display's
spot list. -/
def getSpot (id : Nat) : List Spot → Option Spot
  | [] => none
  | sp :: rest => if sp.id = id then some sp else getSpot id rest

/-- `PointerController::removeFirstFadingSpotLocked`: detach and return the
first spot (in list order) whose id is `INVALID_ID`, if any. -/
def removeFirstFadingSpotLocked : List Spot → Option (Spot × List Spot)
  | [] => none
  | sp :: rest =>
    if sp.id = Spot.INVALID_ID then some (sp, rest)
    else
      match removeFirstFadingSpotLocked rest with
      | some (f, rest') => some (f, sp :: rest')
      | none => none

/-- `PointerController::releaseSpotLocked`: clear the handle's icon, return
the handle to the recycle pool only when the pool has spare capacity, and
destroy the spot. -/
def releaseSpotLocked (spot : Spot) (s : Controller) : Controller :=
  let s := pushEv s (Ev.spriteClearIcon spot.sprite)
  if s.recycledSprites.length < MAX_RECYCLED_SPRITES then
    { s with recycledSprites := s.recycledSprites ++ [spot.sprite] }
  else s

/-- The `while (spots.size() >= MAX_SPOTS)` eviction loop at the head of
`createAndAddSpotLocked`: evict the first fading spot when one exists, else
the spot at index 0, releasing each victim.  The loop removes one spot per
iteration, so the initial list length bounds the iteration count and serves
as structural fuel. -/
def evictSpotsLoop : Nat → List Spot → Controller → List Spot × Controller
  | 0, spots, s => (spots, s)
  | fuel + 1, spots, s =>
    if MAX_SPOTS ≤ spots.length then
      match removeFirstFadingSpotLocked spots with
      | some (f, rest) => evictSpotsLoop fuel rest (releaseSpotLocked f s)
      | none =>
        match spots with
        | [] => ([], s)
        | sp :: rest => evictSpotsLoop fuel rest (releaseSpotLocked sp s)
    else (spots, s)

/-- `PointerController::createAndAddSpotLocked`: evict down below capacity,
obtain a rendering handle from the back of the recycle pool (or allocate a
fresh one), construct the spot and append it. -/
def createAndAddSpotLocked (id : Nat) (spots : List Spot) (s : Controller) :
    Spot × List Spot × Controller :=
  let es := evictSpotsLoop spots.length spots s
  let sprGet : Nat × Controller :=
    match es.2.recycledSprites.getLast? with
    | some spr => (spr, { es.2 with recycledSprites := es.2.recycledSprites.dropLast })
    | none => (es.2.nextSpriteId, { es.2 with nextSpriteId := es.2.nextSpriteId + 1 })
  let spot := Spot.make id sprGet.1
  (spot, es.1 ++ [spot], sprGet.2)

/-- `PointerController::Spot::updateSprite`: push layer, alpha, transform,
position and display to the spot's handle, remember the coordinates, and set
the icon (making the sprite visible) when it differs from the last icon
shown.  The C++ code compares icon pointers into `mResources`; the model
compares the icon identities. -/
def Spot.updateSprite (sp : Spot) (icon : SpriteIcon) (x y : ℚ) (displayId : Int) :
    Spot × List Ev :=
  let evs :=
    [Ev.spriteLayer sp.sprite (BASE_LAYER_SPOT + (sp.id : Int)),
     Ev.spriteAlpha sp.sprite sp.alpha,
     Ev.spriteMatrix sp.sprite sp.scale,
     Ev.spritePos sp.sprite x y,
     Ev.spriteDisplay sp.sprite displayId]
  let sp := { sp with x := x, y := y }
  if sp.lastIcon = some icon then (sp, evs)
  else
    ({ sp with lastIcon := some icon },
     evs ++ [Ev.spriteIcon sp.sprite icon, Ev.spriteVisible sp.sprite true])

/-- Replace the first spot carrying the given id (the in-place mutation of
the C++ `Spot*`). -/
def replaceSpotById (id : Nat) (sp' : Spot) : List Spot → List Spot
  | [] => []
  | sp :: rest => if sp.id = id then sp' :: rest else sp :: replaceSpotById id sp' rest

/-- The coordinates `setSpots` reads for one touch id: `AXIS_X`, `AXIS_Y`
and `AXIS_PRESSURE` of the corresponding `PointerCoords` entry. -/
structure SpotCoords where
  x : ℚ
  y : ℚ
  pressure : ℚ

/-- The body of the add-or-move loop of `setSpots` for a single touch id:
pick the touch or hover icon by the pressure threshold, fetch or create the
spot, and update its sprite. -/
def setSpotsStep (coords : Nat → SpotCoords) (displayId : Int)
    (acc : List Spot × Controller) (id : Nat) : List Spot × Controller :=
  let spots := acc.1
  let s := acc.2
  let c := coords id
  let icon := if c.pressure > 0 then s.resources.spotTouch else s.resources.spotHover
  match getSpot id spots with
  | some sp =>
    let u := sp.updateSprite icon c.x c.y displayId
    (replaceSpotById id u.1 spots, pushEvs s u.2)
  | none =>
    let cr := createAndAddSpotLocked id spots s
    let u := cr.1.updateSprite icon c.x c.y displayId
    (replaceSpotById id u.1 cr.2.1, pushEvs cr.2.2 u.2)

/-- `PointerController::setSpots`: reconciliation of one display's spot list
against a touch report.  `ids` stands for the marked bits of `spotIdBits` in
increasing bit order; `coords` composes `spotCoords` and `spotIdToIndex`.
No-op while no valid viewport is set.  Spots whose id disappeared from the
report begin fading out (which arms the animation loop). -/
def setSpots (now : Int) (coords : Nat → SpotCoords) (ids : List Nat)
    (displayId : Int) (s : Controller) : Controller :=
  if s.viewport.isValid = false then s
  else
    let spots0 := (lookupRes displayId s.spotsByDisplay).getD []
    let s := pushEv s Ev.openTransaction
    let fr := ids.foldl (setSpotsStep coords displayId) (spots0, s)
    let anyLifted :=
      fr.1.any fun sp => decide (sp.id ≠ Spot.INVALID_ID ∧ sp.id ∉ ids)
    let spots1 :=
      fr.1.map fun sp =>
        if sp.id ≠ Spot.INVALID_ID ∧ sp.id ∉ ids then { sp with id := Spot.INVALID_ID } else sp
    let s := if anyLifted then startAnimationLocked now fr.2 else fr.2
    let s := pushEv s Ev.closeTransaction
    { s with spotsByDisplay := insertRes displayId spots1 s.spotsByDisplay }

/-- `PointerController::fadeOutAndReleaseAllSpotsLocked`: mark every spot on
every display as fading (`fadeOutAndReleaseSpotLocked` per spot, which arms
the animation loop for each spot not already fading; arming is idempotent,
so the net effect is a single arm when any live spot exists). -/
def fadeOutAndReleaseAllSpotsLocked (now : Int) (s : Controller) : Controller :=
  let anyLive :=
    s.spotsByDisplay.any fun dl => dl.2.any fun sp => decide (sp.id ≠ Spot.INVALID_ID)
  let s' :=
    { s with
      spotsByDisplay :=
        s.spotsByDisplay.map fun dl =>
          (dl.1, dl.2.map fun sp => { sp with id := Spot.INVALID_ID }) }
  if anyLive then startAnimationLocked now s' else s'

/-- `PointerController::clearSpots`: fade out every spot; no-op while no
valid viewport is set. -/
def clearSpots (now : Int) (s : Controller) : Controller :=
  if s.viewport.isValid = false then s
  else fadeOutAndReleaseAllSpotsLocked now s

/-- `PointerController::setPresentation`. -/
def setPresentation (P : Policy) (now : Int) (presentation : Presentation)
    (s : Controller) : Controller :=
  if s.presentation = presentation then s
  else
    let s := { s with presentation := presentation, presentationChanged := true }
    if s.viewport.isValid = false then s
    else if presentation = Presentation.POINTER then
      let s :=
        if s.additionalMouseResources.isEmpty then
          { s with
            additionalMouseResources := P.additionalMouseResourcesFor s.viewport.displayId
            animationResources := P.animationResourcesFor s.viewport.displayId }
        else s
      updatePointerLocked P now (fadeOutAndReleaseAllSpotsLocked now s)
    else s

/-- `PointerController::setInactivityTimeout`. -/
def setInactivityTimeout (inactivityTimeout : InactivityTimeout) (s : Controller) : Controller :=
  if s.inactivityTimeout ≠ inactivityTimeout then
    resetInactivityTimeoutLocked { s with inactivityTimeout := inactivityTimeout }
  else s

/-- `PointerController::reloadPointerResources`. -/
def reloadPointerResources (P : Policy) (now : Int) (s : Controller) : Controller :=
  updatePointerLocked P now (loadResourcesLocked P s)

/-- `getNonRotatedSize`: device size in the unrotated (orientation 0)
frame — the stored device size with width/height swapped back for the 90°
and 270° orientations. -/
def getNonRotatedSize (v : DisplayViewport) : Int × Int :=
  if v.orientation = Rotation.rot90 ∨ v.orientation = Rotation.rot270 then
    (v.deviceHeight, v.deviceWidth)
  else (v.deviceWidth, v.deviceHeight)

/-- The rotation reprojection inlined in `PointerController::setDisplayViewport`:
shift to the pixel center, undo the old rotation, apply the new rotation
(each using that viewport's own device size), and shift back. -/
def rotatePosition (oldV newV : DisplayViewport) (px py : ℚ) : ℚ × ℚ :=
  let x := px + 1/2
  let y := py + 1/2
  let u : ℚ × ℚ :=
    match oldV.orientation with
    | Rotation.rot90 => ((oldV.deviceHeight : ℚ) - y, x)
    | Rotation.rot180 => ((oldV.deviceWidth : ℚ) - x, (oldV.deviceHeight : ℚ) - y)
    | Rotation.rot270 => (y, (oldV.deviceWidth : ℚ) - x)
    | Rotation.rot0 => (x, y)
  let w : ℚ × ℚ :=
    match newV.orientation with
    | Rotation.rot90 => (u.2, (newV.deviceHeight : ℚ) - u.1)
    | Rotation.rot180 => ((newV.deviceWidth : ℚ) - u.1, (newV.deviceHeight : ℚ) - u.2)
    | Rotation.rot270 => ((newV.deviceWidth : ℚ) - u.2, u.1)
    | Rotation.rot0 => u
  (w.1 - 1/2, w.2 - 1/2)

/-- `PointerController::setDisplayViewport`: no-op on an identical viewport;
recenter the pointer, reload resources and fade out all spots when the
display identity or unrotated size changed; reproject the pointer through
the rotation transform when only the rotation changed; always conclude with
a synchronous state push. -/
def setDisplayViewport (P : Policy) (now : Int) (viewport : DisplayViewport)
    (s : Controller) : Controller :=
  if viewport = s.viewport then s
  else
    let oldViewport := s.viewport
    let s := { s with viewport := viewport }
    let oldSize := getNonRotatedSize oldViewport
    let newSize := getNonRotatedSize viewport
    let s :=
      if oldViewport.displayId ≠ viewport.displayId ∨ oldSize.1 ≠ newSize.1 ∨
          oldSize.2 ≠ newSize.2 then
        let s :=
          match getBoundsLocked s with
          | some (minX, minY, maxX, maxY) =>
            loadResourcesLocked P
              { s with
                pointerX := (minX + maxX) * (1/2)
                pointerY := (minY + maxY) * (1/2) }
          | none => { s with pointerX := 0, pointerY := 0 }
        fadeOutAndReleaseAllSpotsLocked now s
      else if oldViewport.orientation ≠ viewport.orientation then
        let p := rotatePosition oldViewport viewport s.pointerX s.pointerY
        { s with pointerX := p.1, pointerY := p.2 }
      else s
    updatePointerLocked P now s

/-- `PointerController::updatePointerIcon`. -/
def updatePointerIcon (P : Policy) (now : Int) (iconId : Int) (s : Controller) : Controller :=
  if s.requestedPointerType ≠ iconId then
    updatePointerLocked P now
      { s with requestedPointerType := iconId, presentationChanged := true }
  else s

/-- `PointerController::setCustomPointerIcon`. -/
def setCustomPointerIcon (P : Policy) (now : Int) (icon : SpriteIcon) (s : Controller) :
    Controller :=
  let iconId := P.customPointerIconId
  updatePointerLocked P now
    { s with
      additionalMouseResources := insertRes iconId icon s.additionalMouseResources
      requestedPointerType := iconId
      presentationChanged := true }

/-- The pointer-fade section of `PointerController::doFadingAnimationLocked`:
interpolate alpha by `frameDelay / POINTER_FADE_DURATION` toward the fade
target, clamp and clear the direction on arrival, and re-push the pointer
state; the returned flag is this branch's contribution to `keepAnimating`. -/
def pointerFadeStep (P : Policy) (now timestamp : Int) (s : Controller) : Controller × Bool :=
  let frameDelay : ℚ := ((timestamp - s.animationTime : Int) : ℚ)
  if s.pointerFadeDirection < 0 then
    let a := s.pointerAlpha - frameDelay / (POINTER_FADE_DURATION : ℚ)
    if a ≤ 0 then
      (updatePointerLocked P now { s with pointerAlpha := 0, pointerFadeDirection := 0 }, false)
    else
      (updatePointerLocked P now { s with pointerAlpha := a }, true)
  else if s.pointerFadeDirection > 0 then
    let a := s.pointerAlpha + frameDelay / (POINTER_FADE_DURATION : ℚ)
    if a ≥ 1 then
      (updatePointerLocked P now { s with pointerAlpha := 1, pointerFadeDirection := 0 }, false)
    else
      (updatePointerLocked P now { s with pointerAlpha := a }, true)
  else (s, false)

/-- The spot-fade inner loop of `doFadingAnimationLocked` over one display's
spot list: decrement each fading spot's alpha by
`frameDelay / SPOT_FADE_DURATION`; release the spot at alpha ≤ 0, else push
the new alpha and keep animating. -/
def spotsFadeLoop (frameDelay : ℚ) : List Spot → Controller → List Spot × Controller × Bool
  | [], s => ([], s, false)
  | sp :: rest, s =>
    if sp.id = Spot.INVALID_ID then
      let a := sp.alpha - frameDelay / (SPOT_FADE_DURATION : ℚ)
      if a ≤ 0 then
        let s := releaseSpotLocked { sp with alpha := a } s
        spotsFadeLoop frameDelay rest s
      else
        let s := pushEv s (Ev.spriteAlpha sp.sprite a)
        let r := spotsFadeLoop frameDelay rest s
        ({ sp with alpha := a } :: r.1, r.2.1, true)
    else
      let r := spotsFadeLoop frameDelay rest s
      (sp :: r.1, r.2.1, r.2.2)

/-- The per-display outer loop of `doFadingAnimationLocked`; displays left
with zero spots are pruned from the map. -/
def displaysFadeLoop (frameDelay : ℚ) :
    List (Int × List Spot) → Controller → List (Int × List Spot) × Controller × Bool
  | [], s => ([], s, false)
  | (d, spots) :: rest, s =>
    let r := spotsFadeLoop frameDelay spots s
    let rr := displaysFadeLoop frameDelay rest r.2.1
    (if r.1.isEmpty then rr.1 else (d, r.1) :: rr.1, rr.2.1, r.2.2 || rr.2.2)

/-- `PointerController::doFadingAnimationLocked`. -/
def doFadingAnimationLocked (P : Policy) (now timestamp : Int) (s : Controller) :
    Controller × Bool :=
  let frameDelay : ℚ := ((timestamp - s.animationTime : Int) : ℚ)
  let pf := pointerFadeStep P now timestamp s
  let df := displaysFadeLoop frameDelay pf.1.spotsByDisplay pf.1
  ({ df.2.1 with spotsByDisplay := df.1 }, pf.2 || df.2.2)

/-- `PointerController::doBitmapAnimationLocked`: advance the multi-frame
icon animation with catch-up semantics and report "keep animating" whenever
an animation resource is active.  The C++ frame-index normalization is a
`while (index >= count) index -= count` loop; for the terminating cases
(a nonempty frame vector, or an index already below the count) that loop
computes exactly the guarded remainder used here. -/
def doBitmapAnimationLocked (timestamp : Int) (s : Controller) : Controller × Bool :=
  match lookupRes s.requestedPointerType s.animationResources with
  | none => (s, false)
  | some anim =>
    if anim.durationPerFrame < timestamp - s.lastFrameUpdatedTime then
      let incr := (timestamp - s.lastFrameUpdatedTime).tdiv anim.durationPerFrame
      let idx := s.animationFrameIndex + incr
      let n : Int := (anim.animationFrames.length : Int)
      let idx := if 0 < n ∧ n ≤ idx then idx.tmod n else idx
      let frameIcon := anim.animationFrames.getD idx.toNat 0
      let s :=
        { s with
          animationFrameIndex := idx
          lastFrameUpdatedTime := s.lastFrameUpdatedTime + anim.durationPerFrame * incr
          events :=
            s.events ++
              [Ev.openTransaction, Ev.spriteIcon s.pointerSprite frameIcon,
               Ev.closeTransaction] }
      (s, true)
    else (s, true)

/-- `PointerController::doAnimate`: the vsync tick — clear the pending flag,
run fade interpolation and bitmap animation, and re-arm when either asks to
keep animating. -/
def doAnimate (P : Policy) (now timestamp : Int) (s : Controller) : Controller :=
  let s := { s with animationPending := false }
  let f := doFadingAnimationLocked P now timestamp s
  let b := doBitmapAnimationLocked timestamp f.1
  if f.2 || b.2 then startAnimationLocked now b.1 else b.1

/-- `PointerController::doInactivityTimeout`. -/
def doInactivityTimeout (P : Policy) (now : Int) (s : Controller) : Controller :=
  fade P now Transition.GRADUAL s

/-- The state established by the `PointerController` constructor: invalid
viewport, POINTER presentation, pointer at the origin and fully faded, no
pending animation, empty spot map and recycle pool. -/
def initialState (P : Policy) : Controller :=
  { viewport := DisplayViewport.invalid
    presentation := Presentation.POINTER
    presentationChanged := false
    pointerFadeDirection := 0
    pointerX := 0
    pointerY := 0
    pointerAlpha := 0
    pointerSprite := 0
    pointerIcon := 0
    pointerIconChanged := false
    requestedPointerType := P.defaultPointerIconId
    additionalMouseResources := []
    animationResources := []
    animationFrameIndex := 0
    lastFrameUpdatedTime := 0
    animationPending := false
    animationTime := 0
    inactivityTimeout := InactivityTimeout.NORMAL
    buttonState := 0
    resources := default
    spotsByDisplay := []
    recycledSprites := []
    nextSpriteId := 1
    events := [] }

/-- The states the controller can actually be in: the constructor state,
closed under every public operation and both scheduled callbacks. -/
inductive Reachable (P : Policy) : Controller → Prop
  | init : Reachable P (initialState P)
  | move (now : Int) (dx dy : ℚ) {s : Controller} :
      Reachable P s → Reachable P (move P now dx dy s)
  | setPosition (now : Int) (x y : ℚ) {s : Controller} :
      Reachable P s → Reachable P (setPosition P now x y s)
  | setButtonState (b : Int) {s : Controller} :
      Reachable P s → Reachable P (setButtonState b s)
  | fade (now : Int) (t : Transition) {s : Controller} :
      Reachable P s → Reachable P (fade P now t s)
  | unfade (now : Int) (t : Transition) {s : Controller} :
      Reachable P s → Reachable P (unfade P now t s)
  | setPresentation (now : Int) (pres : Presentation) {s : Controller} :
      Reachable P s → Reachable P (setPresentation P now pres s)
  | setSpots (now : Int) (coords : Nat → SpotCoords) (ids : List Nat)
      (displayId : Int) {s : Controller} :
      Reachable P s → Reachable P (setSpots now coords ids displayId s)
  | clearSpots (now : Int) {s : Controller} :
      Reachable P s → Reachable P (clearSpots now s)
  | setInactivityTimeout (t : InactivityTimeout) {s : Controller} :
      Reachable P s → Reachable P (setInactivityTimeout t s)
  | reloadPointerResources (now : Int) {s : Controller} :
      Reachable P s → Reachable P (reloadPointerResources P now s)
  | setDisplayViewport (now : Int) (v : DisplayViewport) {s : Controller} :
      Reachable P s → Reachable P (setDisplayViewport P now v s)
  | updatePointerIcon (now : Int) (iconId : Int) {s : Controller} :
      Reachable P s → Reachable P (updatePointerIcon P now iconId s)
  | setCustomPointerIcon (now : Int) (icon : SpriteIcon) {s : Controller} :
      Reachable P s → Reachable P (setCustomPointerIcon P now icon s)
  | doAnimate (now timestamp : Int) {s : Controller} :
      Reachable P s → Reachable P (doAnimate P now timestamp s)
  | doInactivityTimeout (now : Int) {s : Controller} :
      Reachable P s → Reachable P (doInactivityTimeout P now s)

/-- A concrete policy used to instantiate witnesses. -/
def examplePolicy : Policy :=
  { defaultPointerIconId := 1000
    customPointerIconId := 1001
    pointerIconFor := fun d => (d.toNat + 50)
    pointerResourcesFor := fun d => ⟨d.toNat + 60, d.toNat + 61, d.toNat + 62⟩
    additionalMouseResourcesFor := fun d => [(2000, d.toNat + 70)]
    animationResourcesFor := fun _ => [] }

/-- The recycle pool respects its capacity bound.  The only instruction
that grows the pool is the guarded push in `releaseSpotLocked`, so every
operation preserves this. -/
def PoolOK (s : Controller) : Prop :=
  s.recycledSprites.length ≤ MAX_RECYCLED_SPRITES

/-- The dirty-flag discipline: whenever a valid viewport is set and the
presentation is POINTER, the icon/presentation dirty flags are clear —
every operation that raises them either concludes with
`updatePointerLocked` (which clears them), or leaves the viewport invalid,
or leaves the presentation at SPOT. -/
def FlagOK (s : Controller) : Prop :=
  s.viewport.isValid = true → s.presentation = Presentation.POINTER →
    s.pointerIconChanged = false ∧ s.presentationChanged = false

/-- `t` agrees with `s` on the fields `FlagOK` observes (viewport,
presentation and the two dirty flags). -/
def SameCore (s t : Controller) : Prop :=
  t.viewport = s.viewport ∧ t.presentation = s.presentation ∧
  t.pointerIconChanged = s.pointerIconChanged ∧ t.presentationChanged = s.presentationChanged

/-! Concrete instances used by counterexamples and witnesses. -/

/-- The spec's scenario viewport: `{left:0, top:0, width:1080, height:1920,
rotation:0}` on display 0. -/
def scenarioViewport : DisplayViewport :=
  { displayId := 0
    orientation := Rotation.rot0
    logicalLeft := 0
    logicalTop := 0
    logicalRight := 1080
    logicalBottom := 1920
    deviceWidth := 1080
    deviceHeight := 1920 }

/-- The scenario viewport rotated by 90°: same display, same unrotated
device size, rotated logical bounds and device size. -/
def scenarioViewport90 : DisplayViewport :=
  { displayId := 0
    orientation := Rotation.rot90
    logicalLeft := 0
    logicalTop := 0
    logicalRight := 1920
    logicalBottom := 1080
    deviceWidth := 1920
    deviceHeight := 1080 }

/-- A valid (per `isValid`) viewport whose logical bounds are degenerate:
`logicalRight - 1 < logicalLeft`. -/
def degenerateViewport : DisplayViewport :=
  { displayId := 0
    orientation := Rotation.rot0
    logicalLeft := 5
    logicalTop := 5
    logicalRight := 3
    logicalBottom := 3
    deviceWidth := 10
    deviceHeight := 10 }

/-- A fresh controller that has been given the scenario viewport. -/
def scenarioState : Controller :=
  { initialState examplePolicy with viewport := scenarioViewport }

/-- A fresh controller that has been given the degenerate viewport. -/
def degenerateState : Controller :=
  { initialState examplePolicy with viewport := degenerateViewport }

/-- Twelve live (non-fading) spots, in creation order. -/
def twelveLiveSpots : List Spot :=
  (List.range 12).map fun i => Spot.make i (100 + i)

/-- A controller mid-way through a gradual pointer fade (used to exercise
the fading tick). -/
def fadingState : Controller :=
  { scenarioState with pointerAlpha := 1, pointerFadeDirection := -1, animationTime := 1000 }

/-- A controller whose recycle pool is full and that carries one
almost-faded-out spot (used to exercise the handle-discard path). -/
def fullPoolState : Controller :=
  { scenarioState with
    recycledSprites := [200, 201, 202, 203, 204, 205, 206, 207, 208, 209, 210, 211]
    spotsByDisplay := [(0, [{ Spot.make Spot.INVALID_ID 99 with alpha := 1/100 }])]
    animationTime := 1000 }

/-- Like `fullPoolState` but with a recycle pool that has spare capacity. -/
def sparePoolState : Controller :=
  { scenarioState with
    recycledSprites := [200]
    spotsByDisplay := [(0, [{ Spot.make Spot.INVALID_ID 99 with alpha := 1/100 }])]
    animationTime := 1000 }

/-- A controller requesting an icon that is absent from the additional-icon
table, with a pending icon change (used to exercise the fallback path). -/
def missingIconState : Controller :=
  { scenarioState with requestedPointerType := 3333, pointerIconChanged := true }

/-- The eviction choice of `createAndAddSpotLocked`: the first fading spot
in list order together with the remaining list, when one exists, else the
spot at index 0 together with the tail. -/
def evictVictim (spots : List Spot) : Spot × List Spot :=
  match removeFirstFadingSpotLocked spots with
  | some (f, rest) => (f, rest)
  | none => (spots.headI, spots.tail)


/-! ### Projection lemmas for the state-pushing helpers -/

theorem pushEv_fields (s : Controller) (e : Ev) :
    (pushEv s e).viewport = s.viewport ∧ (pushEv s e).presentation = s.presentation ∧
    (pushEv s e).pointerIconChanged = s.pointerIconChanged ∧
    (pushEv s e).presentationChanged = s.presentationChanged ∧
    (pushEv s e).recycledSprites = s.recycledSprites ∧
    (pushEv s e).pointerAlpha = s.pointerAlpha ∧
    (pushEv s e).pointerFadeDirection = s.pointerFadeDirection ∧
    (pushEv s e).animationPending = s.animationPending := by
  simp [pushEv]

theorem startAnimationLocked_fields (now : Int) (s : Controller) :
    (startAnimationLocked now s).viewport = s.viewport ∧
    (startAnimationLocked now s).presentation = s.presentation ∧
    (startAnimationLocked now s).pointerIconChanged = s.pointerIconChanged ∧
    (startAnimationLocked now s).presentationChanged = s.presentationChanged ∧
    (startAnimationLocked now s).recycledSprites = s.recycledSprites ∧
    (startAnimationLocked now s).pointerAlpha = s.pointerAlpha ∧
    (startAnimationLocked now s).pointerFadeDirection = s.pointerFadeDirection ∧
    (startAnimationLocked now s).spotsByDisplay = s.spotsByDisplay := by
  unfold startAnimationLocked
  split <;> simp

theorem updatePointerLocked_fields (P : Policy) (now : Int) (s : Controller) :
    (updatePointerLocked P now s).viewport = s.viewport ∧
    (updatePointerLocked P now s).presentation = s.presentation ∧
    (updatePointerLocked P now s).pointerX = s.pointerX ∧
    (updatePointerLocked P now s).pointerY = s.pointerY ∧
    (updatePointerLocked P now s).pointerAlpha = s.pointerAlpha ∧
    (updatePointerLocked P now s).pointerFadeDirection = s.pointerFadeDirection ∧
    (updatePointerLocked P now s).spotsByDisplay = s.spotsByDisplay ∧
    (updatePointerLocked P now s).recycledSprites = s.recycledSprites ∧
    (updatePointerLocked P now s).resources = s.resources ∧
    (updatePointerLocked P now s).pointerIcon = s.pointerIcon ∧
    (updatePointerLocked P now s).additionalMouseResources = s.additionalMouseResources ∧
    (updatePointerLocked P now s).animationResources = s.animationResources ∧
    (updatePointerLocked P now s).requestedPointerType = s.requestedPointerType ∧
    (updatePointerLocked P now s).nextSpriteId = s.nextSpriteId := by
  unfold updatePointerLocked
  split <;> simp

theorem updatePointerLocked_clears_flags (P : Policy) (now : Int) (s : Controller)
    (h : s.viewport.isValid = true) :
    (updatePointerLocked P now s).pointerIconChanged = false ∧
    (updatePointerLocked P now s).presentationChanged = false := by
  unfold updatePointerLocked
  rw [h]
  simp

theorem updatePointerArmsAnimation_eq_false (P : Policy) (s : Controller)
    (h : s.presentation = Presentation.POINTER →
      s.pointerIconChanged = false ∧ s.presentationChanged = false) :
    updatePointerArmsAnimation P s = false := by
  unfold updatePointerArmsAnimation
  cases hp : s.presentation
  · obtain ⟨h1, h2⟩ := h hp
    simp [h1, h2]
  · simp

theorem updatePointerLocked_pending (P : Policy) (now : Int) (s : Controller)
    (h : updatePointerArmsAnimation P s = false) :
    (updatePointerLocked P now s).animationPending = s.animationPending ∧
    (updatePointerLocked P now s).animationTime = s.animationTime := by
  unfold updatePointerLocked
  split
  · exact ⟨rfl, rfl⟩
  · simp [h]

theorem updatePointerLocked_viewport (P : Policy) (now : Int) (s : Controller) :
    (updatePointerLocked P now s).viewport = s.viewport :=
  (updatePointerLocked_fields P now s).1

theorem updatePointerLocked_presentation (P : Policy) (now : Int) (s : Controller) :
    (updatePointerLocked P now s).presentation = s.presentation :=
  (updatePointerLocked_fields P now s).2.1

theorem updatePointerLocked_pointerX (P : Policy) (now : Int) (s : Controller) :
    (updatePointerLocked P now s).pointerX = s.pointerX :=
  (updatePointerLocked_fields P now s).2.2.1

theorem updatePointerLocked_pointerY (P : Policy) (now : Int) (s : Controller) :
    (updatePointerLocked P now s).pointerY = s.pointerY :=
  (updatePointerLocked_fields P now s).2.2.2.1

theorem updatePointerLocked_pointerAlpha (P : Policy) (now : Int) (s : Controller) :
    (updatePointerLocked P now s).pointerAlpha = s.pointerAlpha :=
  (updatePointerLocked_fields P now s).2.2.2.2.1

theorem updatePointerLocked_pointerFadeDirection (P : Policy) (now : Int) (s : Controller) :
    (updatePointerLocked P now s).pointerFadeDirection = s.pointerFadeDirection :=
  (updatePointerLocked_fields P now s).2.2.2.2.2.1

theorem updatePointerLocked_spotsByDisplay (P : Policy) (now : Int) (s : Controller) :
    (updatePointerLocked P now s).spotsByDisplay = s.spotsByDisplay :=
  (updatePointerLocked_fields P now s).2.2.2.2.2.2.1

theorem updatePointerLocked_recycledSprites (P : Policy) (now : Int) (s : Controller) :
    (updatePointerLocked P now s).recycledSprites = s.recycledSprites :=
  (updatePointerLocked_fields P now s).2.2.2.2.2.2.2.1

theorem updatePointerLocked_resources (P : Policy) (now : Int) (s : Controller) :
    (updatePointerLocked P now s).resources = s.resources :=
  (updatePointerLocked_fields P now s).2.2.2.2.2.2.2.2.1

theorem updatePointerLocked_pointerIcon (P : Policy) (now : Int) (s : Controller) :
    (updatePointerLocked P now s).pointerIcon = s.pointerIcon :=
  (updatePointerLocked_fields P now s).2.2.2.2.2.2.2.2.2.1

theorem updatePointerLocked_additionalMouseResources (P : Policy) (now : Int) (s : Controller) :
    (updatePointerLocked P now s).additionalMouseResources = s.additionalMouseResources :=
  (updatePointerLocked_fields P now s).2.2.2.2.2.2.2.2.2.2.1

theorem updatePointerLocked_animationResources (P : Policy) (now : Int) (s : Controller) :
    (updatePointerLocked P now s).animationResources = s.animationResources :=
  (updatePointerLocked_fields P now s).2.2.2.2.2.2.2.2.2.2.2.1

/-! ### C9 and C10: the `move` no-op and `move`/`setPosition` agreement -/

/-- C9: `move(0, 0)` returns before touching any state: the resulting
controller — position, alpha, the whole event trace included — is exactly
the argument, so no rendering push occurs. -/
theorem claimC9_move_zero_noop (P : Policy) (now : Int) (s : Controller) :
    move P now 0 0 s = s := by
  unfold move
  simp

/-- C10: for a nonzero delta, `move(dx, dy)` leaves the controller in
exactly the state `setPosition(px + dx, py + dy)` produces from the current
position `(px, py)`: both route through the same clamping-and-push step. -/
theorem claimC10_move_setPosition (P : Policy) (now : Int) (dx dy : ℚ) (s : Controller)
    (h : ¬(dx = 0 ∧ dy = 0)) :
    move P now dx dy s = setPosition P now (s.pointerX + dx) (s.pointerY + dy) s := by
  unfold move setPosition
  rw [if_neg h]

/-- Witness for C10 at a concrete nonzero delta. -/
theorem claimC10_witness :
    move examplePolicy 0 1 0 scenarioState =
      setPosition examplePolicy 0 (scenarioState.pointerX + 1) (scenarioState.pointerY + 0)
        scenarioState := by
  exact claimC10_move_setPosition examplePolicy 0 1 0 scenarioState (by norm_num)

/-! ### C1: the clamping law -/

/-- C1 (counterexample): the claim quantifies over *every valid viewport*,
but validity only constrains the display id, not the geometry.  On the
degenerate (yet valid) viewport with `logicalLeft = 5, logicalRight = 3`,
`setPosition(0, 0)` stores `position.x = minX = 5`, which violates the
claimed `position.x ≤ maxX = logicalRight - 1 = 2`. -/
theorem claimC1_counterexample :
    degenerateViewport.isValid = true ∧
    degenerateState.viewport = degenerateViewport ∧
    ¬((setPosition examplePolicy 0 0 0 degenerateState).pointerX ≤
        (degenerateViewport.logicalRight : ℚ) - 1) := by
  refine ⟨rfl, rfl, ?_⟩
  simp only [setPosition, setPositionLocked, getBoundsLocked, degenerateState,
    degenerateViewport, initialState, examplePolicy, DisplayViewport.isValid,
    updatePointerLocked]
  norm_num

/-- C1 (amended): for every valid viewport whose logical bounds are
nondegenerate (`minX ≤ maxX` and `minY ≤ maxY`), after `setPosition(x, y)`
the stored pointer position satisfies `minX ≤ position.x ≤ maxX` and
`minY ≤ position.y ≤ maxY`, where `minX/minY` are the viewport's
`logicalLeft`/`logicalTop` and `maxX/maxY` are
`logicalRight - 1`/`logicalBottom - 1`. -/
theorem claimC1_clamping (P : Policy) (now : Int) (x y : ℚ) (s : Controller)
    (hv : s.viewport.isValid = true)
    (hx : (s.viewport.logicalLeft : ℚ) ≤ (s.viewport.logicalRight : ℚ) - 1)
    (hy : (s.viewport.logicalTop : ℚ) ≤ (s.viewport.logicalBottom : ℚ) - 1) :
    (s.viewport.logicalLeft : ℚ) ≤ (setPosition P now x y s).pointerX ∧
    (setPosition P now x y s).pointerX ≤ (s.viewport.logicalRight : ℚ) - 1 ∧
    (s.viewport.logicalTop : ℚ) ≤ (setPosition P now x y s).pointerY ∧
    (setPosition P now x y s).pointerY ≤ (s.viewport.logicalBottom : ℚ) - 1 := by
  simp only [setPosition, setPositionLocked, getBoundsLocked, hv, if_true,
    updatePointerLocked_pointerX, updatePointerLocked_pointerY]
  refine ⟨?_, ?_, ?_, ?_⟩ <;> split_ifs <;> linarith

/-- Witness for the amended C1 on the spec's scenario: viewport
`{left:0, top:0, width:1080, height:1920, rotation:0}`, `setPosition(2000,
5000)` stays within bounds (by the theorem) and stores exactly
`(1079, 1919)`. -/
theorem claimC1_witness :
    (scenarioState.viewport.isValid = true ∧
      ((scenarioState.viewport.logicalLeft : ℚ) ≤
          (setPosition examplePolicy 0 2000 5000 scenarioState).pointerX ∧
        (setPosition examplePolicy 0 2000 5000 scenarioState).pointerX ≤
          (scenarioState.viewport.logicalRight : ℚ) - 1)) ∧
    (setPosition examplePolicy 0 2000 5000 scenarioState).pointerX = 1079 ∧
    (setPosition examplePolicy 0 2000 5000 scenarioState).pointerY = 1919 := by
  refine ⟨⟨rfl, ?_, ?_⟩, ?_, ?_⟩
  · exact (claimC1_clamping examplePolicy 0 2000 5000 scenarioState rfl (by norm_num [scenarioState, scenarioViewport]) (by norm_num [scenarioState, scenarioViewport])).1
  · exact (claimC1_clamping examplePolicy 0 2000 5000 scenarioState rfl (by norm_num [scenarioState, scenarioViewport]) (by norm_num [scenarioState, scenarioViewport])).2.1
  · simp only [setPosition, setPositionLocked, getBoundsLocked, scenarioState,
      scenarioViewport, initialState, examplePolicy, DisplayViewport.isValid,
      updatePointerLocked]
    norm_num
  · simp only [setPosition, setPositionLocked, getBoundsLocked, scenarioState,
      scenarioViewport, initialState, examplePolicy, DisplayViewport.isValid,
      updatePointerLocked]
    norm_num

/-! ### C2: the rotation round-trip law -/

/-- C2: for viewports that differ only in rotation (same display id, same
unrotated device size), the rotation reprojection used by
`setDisplayViewport` — undo the old rotation on the pixel-center-adjusted
point, apply the new rotation, subtract the half-pixel offset — composed
with the reprojection back from the new viewport to the old one, recovers
the original position exactly (the model computes in exact rational
arithmetic, so "within floating-point tolerance" holds with zero error). -/
theorem claimC2_roundTrip (oldV newV : DisplayViewport)
    (_hid : oldV.displayId = newV.displayId)
    (_hsize : getNonRotatedSize oldV = getNonRotatedSize newV) (px py : ℚ) :
    rotatePosition newV oldV
      (rotatePosition oldV newV px py).1 (rotatePosition oldV newV px py).2 = (px, py) := by
  unfold rotatePosition
  rcases hold : oldV.orientation <;> rcases hnew : newV.orientation <;>
    simp only [Prod.mk.injEq] <;> constructor <;> ring

/-- Witness for C2: the 0°→90° reprojection of `(10, 20)` on the scenario
viewport pair round-trips back to `(10, 20)`. -/
theorem claimC2_witness :
    scenarioViewport.displayId = scenarioViewport90.displayId ∧
    getNonRotatedSize scenarioViewport = getNonRotatedSize scenarioViewport90 ∧
    rotatePosition scenarioViewport90 scenarioViewport
      (rotatePosition scenarioViewport scenarioViewport90 10 20).1
      (rotatePosition scenarioViewport scenarioViewport90 10 20).2 = (10, 20) := by
  refine ⟨rfl, by decide, ?_⟩
  exact claimC2_roundTrip scenarioViewport scenarioViewport90 rfl (by decide) 10 20

/-! ### C3: eviction at capacity -/

theorem removeFirstFadingSpotLocked_length {spots : List Spot} {f : Spot} {rest : List Spot}
    (h : removeFirstFadingSpotLocked spots = some (f, rest)) :
    rest.length + 1 = spots.length := by
  induction spots generalizing f rest with
  | nil => simp [removeFirstFadingSpotLocked] at h
  | cons sp tl ih =>
    unfold removeFirstFadingSpotLocked at h
    split at h
    · cases h
      rfl
    · revert h
      split
      · rename_i f' rest' hrec
        intro h
        cases h
        simpa using ih hrec
      · intro h
        cases h

theorem removeFirstFadingSpotLocked_none {spots : List Spot}
    (h : ∀ sp ∈ spots, sp.id ≠ Spot.INVALID_ID) :
    removeFirstFadingSpotLocked spots = none := by
  induction spots with
  | nil => rfl
  | cons sp tl ih =>
    unfold removeFirstFadingSpotLocked
    rw [if_neg (h sp (List.mem_cons_self sp tl))]
    rw [ih fun q hq => h q (List.mem_cons_of_mem sp hq)]

theorem removeFirstFadingSpotLocked_find? {spots : List Spot} {f : Spot} {rest : List Spot}
    (h : removeFirstFadingSpotLocked spots = some (f, rest)) :
    spots.find? (fun sp => sp.id == Spot.INVALID_ID) = some f := by
  induction spots generalizing f rest with
  | nil => simp [removeFirstFadingSpotLocked] at h
  | cons sp tl ih =>
    unfold removeFirstFadingSpotLocked at h
    split at h
    · cases h
      rename_i hid
      simp [List.find?, hid]
    · rename_i hid
      revert h
      split
      · rename_i f' rest' hrec
        intro h
        cases h
        have hb : (sp.id == Spot.INVALID_ID) = false := beq_eq_false_iff_ne.mpr hid
        simp only [List.find?, hb]
        exact ih hrec
      · intro h
        cases h

theorem evictSpotsLoop_done (fuel : Nat) (spots : List Spot) (s : Controller)
    (h : spots.length < MAX_SPOTS) :
    evictSpotsLoop fuel spots s = (spots, s) := by
  cases fuel with
  | zero => rfl
  | succ n =>
    unfold evictSpotsLoop
    rw [if_neg (Nat.not_le_of_lt h)]

theorem evictSpotsLoop_at_capacity (spots : List Spot) (s : Controller)
    (h : spots.length = MAX_SPOTS) :
    evictSpotsLoop spots.length spots s =
      ((evictVictim spots).2, releaseSpotLocked (evictVictim spots).1 s) := by
  have hpos : spots.length = 11 + 1 := h
  rw [hpos]
  unfold evictSpotsLoop
  rw [if_pos (le_of_eq h.symm)]
  unfold evictVictim
  cases hr : removeFirstFadingSpotLocked spots with
  | some p =>
    obtain ⟨f, rest⟩ := p
    have hlen : rest.length + 1 = spots.length := removeFirstFadingSpotLocked_length hr
    have hrest : rest.length < MAX_SPOTS := by
      rw [← h, ← hlen]
      omega
    exact evictSpotsLoop_done 11 rest _ hrest
  | none =>
    cases spots with
    | nil => exact absurd h (by decide)
    | cons sp tl =>
      simp only [List.headI, List.tail_cons]
      have hl : tl.length < MAX_SPOTS := by
        have h2 : tl.length + 1 = MAX_SPOTS := by simpa using h
        omega
      exact evictSpotsLoop_done 11 tl _ hl

/-- C3: when a display's spot list already holds `MAX_SPOTS` spots, creating
one more spot evicts exactly one spot — the first fading spot
(`id == INVALID_ID`) in list order when one exists, else the spot at index 0
(the head of the creation-ordered list) — and the evicted spot is always
released through `releaseSpotLocked`, the handle-recycling release path
(its handle entering the recycle pool whenever the pool has spare
capacity).  The surviving spots plus the freshly appended one leave the list
again at `MAX_SPOTS`. -/
theorem claimC3_eviction (id : Nat) (spots : List Spot) (s : Controller)
    (hlen : spots.length = MAX_SPOTS) :
    (createAndAddSpotLocked id spots s).2.1 =
        (evictVictim spots).2 ++ [(createAndAddSpotLocked id spots s).1] ∧
    (evictVictim spots).2.length + 1 = MAX_SPOTS ∧
    (createAndAddSpotLocked id spots s).2.2.events =
        (releaseSpotLocked (evictVictim spots).1 s).events ∧
    (releaseSpotLocked (evictVictim spots).1 s).events =
        s.events ++ [Ev.spriteClearIcon (evictVictim spots).1.sprite] ∧
    (∀ f rest, removeFirstFadingSpotLocked spots = some (f, rest) →
      spots.find? (fun sp => sp.id == Spot.INVALID_ID) = some f ∧ evictVictim spots = (f, rest)) ∧
    ((∀ sp ∈ spots, sp.id ≠ Spot.INVALID_ID) →
      evictVictim spots = (spots.headI, spots.tail)) ∧
    (s.recycledSprites.length < MAX_RECYCLED_SPRITES →
      (evictVictim spots).1.sprite ∈ (releaseSpotLocked (evictVictim spots).1 s).recycledSprites) := by
  have hloop := evictSpotsLoop_at_capacity spots s hlen
  refine ⟨?_, ?_, ?_, ?_, ?_, ?_, ?_⟩
  · unfold createAndAddSpotLocked
    rw [hloop]
  · unfold evictVictim
    cases hr : removeFirstFadingSpotLocked spots with
    | some p =>
      obtain ⟨f, rest⟩ := p
      simpa [hlen] using removeFirstFadingSpotLocked_length hr
    | none =>
      cases spots with
      | nil => simp [MAX_SPOTS] at hlen
      | cons sp tl => simpa using hlen
  · unfold createAndAddSpotLocked
    rw [hloop]
    dsimp only
    split <;> rfl
  · unfold releaseSpotLocked pushEv
    dsimp only
    split <;> rfl
  · intro f rest hr
    exact ⟨removeFirstFadingSpotLocked_find? hr, by unfold evictVictim; rw [hr]⟩
  · intro hnone
    unfold evictVictim
    rw [removeFirstFadingSpotLocked_none hnone]
  · intro hroom
    unfold releaseSpotLocked pushEv
    rw [if_pos (by simpa using hroom)]
    simp

/-- Witness for C3 on the spec's scenario: twelve concurrently-active
(non-fading) spots, one more created — the evicted spot is the
earliest-created live one (index 0, id 0), released through the recycling
path. -/
theorem claimC3_witness :
    twelveLiveSpots.length = MAX_SPOTS ∧
    (createAndAddSpotLocked 99 twelveLiveSpots scenarioState).2.1 =
        (evictVictim twelveLiveSpots).2 ++
          [(createAndAddSpotLocked 99 twelveLiveSpots scenarioState).1] ∧
    evictVictim twelveLiveSpots = (twelveLiveSpots.headI, twelveLiveSpots.tail) ∧
    (evictVictim twelveLiveSpots).1.id = 0 ∧
    (evictVictim twelveLiveSpots).1.sprite ∈
      (releaseSpotLocked (evictVictim twelveLiveSpots).1 scenarioState).recycledSprites := by
  have h := claimC3_eviction 99 twelveLiveSpots scenarioState (by rfl)
  refine ⟨rfl, h.1, ?_, by rfl, ?_⟩
  · exact h.2.2.2.2.2.1 (by decide)
  · exact h.2.2.2.2.2.2 (by decide)

/-! ### C4: gradual fade-out, tick by tick -/

/-- C4: after `fade(GRADUAL)` the fade direction is `-1`, and every
delivered animation tick with positive elapsed time takes the fading-out
branch of `doFadingAnimationLocked`: while the decrement leaves alpha
positive, alpha drops by exactly `elapsed / POINTER_FADE_DURATION`
(a strict decrease) and the branch keeps the animation alive; once the
decrement reaches (or crosses) zero, alpha is clamped to exactly 0, the
fade direction is cleared, and the fading branch requests no further
animation tick.  With the direction cleared, a subsequent tick leaves the
state untouched and requests nothing. -/
theorem claimC4_gradualFade (P : Policy) (now timestamp : Int) :
    (∀ s : Controller, (fade P now Transition.GRADUAL s).pointerFadeDirection = -1) ∧
    (∀ s : Controller, s.pointerFadeDirection < 0 →
      0 < timestamp - s.animationTime →
      0 < s.pointerAlpha - ((timestamp - s.animationTime : Int) : ℚ) / (POINTER_FADE_DURATION : ℚ) →
      (pointerFadeStep P now timestamp s).1.pointerAlpha =
          s.pointerAlpha -
            ((timestamp - s.animationTime : Int) : ℚ) / (POINTER_FADE_DURATION : ℚ) ∧
        (pointerFadeStep P now timestamp s).1.pointerAlpha < s.pointerAlpha ∧
        (pointerFadeStep P now timestamp s).2 = true) ∧
    (∀ s : Controller, s.pointerFadeDirection < 0 →
      s.pointerAlpha - ((timestamp - s.animationTime : Int) : ℚ) / (POINTER_FADE_DURATION : ℚ) ≤ 0 →
      (pointerFadeStep P now timestamp s).1.pointerAlpha = 0 ∧
        (pointerFadeStep P now timestamp s).1.pointerFadeDirection = 0 ∧
        (pointerFadeStep P now timestamp s).2 = false) ∧
    (∀ s : Controller, s.pointerFadeDirection = 0 →
      pointerFadeStep P now timestamp s = (s, false)) := by
  refine ⟨?_, ?_, ?_, ?_⟩
  · intro s
    unfold fade
    rw [if_neg (by simp)]
    rw [(startAnimationLocked_fields now _).2.2.2.2.2.2.1]
  · intro s hdir hel hpos
    unfold pointerFadeStep
    rw [if_pos hdir, if_neg (not_le_of_gt hpos)]
    refine ⟨?_, ?_, rfl⟩
    · exact updatePointerLocked_pointerAlpha P now _
    · rw [updatePointerLocked_pointerAlpha P now _]
      have hd : 0 < ((timestamp - s.animationTime : Int) : ℚ) / (POINTER_FADE_DURATION : ℚ) := by
        apply div_pos
        · exact_mod_cast hel
        · norm_num [POINTER_FADE_DURATION]
      linarith
  · intro s hdir hle
    unfold pointerFadeStep
    rw [if_pos hdir, if_pos hle]
    exact ⟨updatePointerLocked_pointerAlpha P now _,
      updatePointerLocked_pointerFadeDirection P now _, rfl⟩
  · intro s hdir
    unfold pointerFadeStep
    rw [if_neg (by omega), if_neg (by omega)]

/-- Witness for C4: from a mid-fade state (alpha 1, direction −1, armed at
time 1000), a tick 250 ms later drops alpha to exactly 1/2 and keeps
animating; a tick 600 ms after arming clamps alpha to 0, clears the
direction and requests no further fading tick. -/
theorem claimC4_witness :
    ((pointerFadeStep examplePolicy 0 250001000 fadingState).1.pointerAlpha =
        fadingState.pointerAlpha -
          ((250001000 - fadingState.animationTime : Int) : ℚ) / (POINTER_FADE_DURATION : ℚ) ∧
      (pointerFadeStep examplePolicy 0 250001000 fadingState).1.pointerAlpha <
        fadingState.pointerAlpha ∧
      (pointerFadeStep examplePolicy 0 250001000 fadingState).2 = true) ∧
    ((pointerFadeStep examplePolicy 0 600001000 fadingState).1.pointerAlpha = 0 ∧
      (pointerFadeStep examplePolicy 0 600001000 fadingState).1.pointerFadeDirection = 0 ∧
      (pointerFadeStep examplePolicy 0 600001000 fadingState).2 = false) := by
  constructor
  · exact (claimC4_gradualFade examplePolicy 0 250001000).2.1 fadingState
      (by norm_num [fadingState, scenarioState, initialState])
      (by norm_num [fadingState, scenarioState, initialState])
      (by norm_num [fadingState, scenarioState, initialState, POINTER_FADE_DURATION])
  · exact (claimC4_gradualFade examplePolicy 0 600001000).2.2.1 fadingState
      (by norm_num [fadingState, scenarioState, initialState])
      (by norm_num [fadingState, scenarioState, initialState, POINTER_FADE_DURATION])

/-! ### Preservation of the pool bound and the dirty-flag discipline -/

theorem sameCore_rfl (s : Controller) : SameCore s s := ⟨rfl, rfl, rfl, rfl⟩

theorem sameCore_trans {s t u : Controller} (h1 : SameCore s t) (h2 : SameCore t u) :
    SameCore s u :=
  ⟨h2.1.trans h1.1, h2.2.1.trans h1.2.1, h2.2.2.1.trans h1.2.2.1, h2.2.2.2.trans h1.2.2.2⟩

theorem flagOK_of_sameCore {s t : Controller} (h : SameCore s t) (hf : FlagOK s) : FlagOK t := by
  intro hv hp
  rw [h.1] at hv
  rw [h.2.1] at hp
  rw [h.2.2.1, h.2.2.2]
  exact hf hv hp

theorem pushEv_sameCore (s : Controller) (e : Ev) :
    SameCore s (pushEv s e) ∧ (pushEv s e).recycledSprites = s.recycledSprites := by
  simp [pushEv, SameCore]

theorem pushEvs_sameCore (s : Controller) (l : List Ev) :
    SameCore s (pushEvs s l) ∧ (pushEvs s l).recycledSprites = s.recycledSprites := by
  simp [pushEvs, SameCore]

theorem startAnimationLocked_sameCore (now : Int) (s : Controller) :
    SameCore s (startAnimationLocked now s) ∧
    (startAnimationLocked now s).recycledSprites = s.recycledSprites := by
  unfold startAnimationLocked SameCore
  split <;> simp

theorem removeInactivityTimeoutLocked_sameCore (s : Controller) :
    SameCore s (removeInactivityTimeoutLocked s) ∧
    (removeInactivityTimeoutLocked s).recycledSprites = s.recycledSprites :=
  pushEv_sameCore s _

theorem resetInactivityTimeoutLocked_sameCore (s : Controller) :
    SameCore s (resetInactivityTimeoutLocked s) ∧
    (resetInactivityTimeoutLocked s).recycledSprites = s.recycledSprites :=
  pushEvs_sameCore s _

theorem releaseSpotLocked_sameCore (sp : Spot) (s : Controller) :
    SameCore s (releaseSpotLocked sp s) := by
  unfold releaseSpotLocked pushEv SameCore
  dsimp only
  split <;> simp

theorem releaseSpotLocked_poolOK (sp : Spot) (s : Controller) (h : PoolOK s) :
    PoolOK (releaseSpotLocked sp s) := by
  unfold releaseSpotLocked pushEv PoolOK
  dsimp only
  split
  · rename_i hlt
    simp only [List.length_append, List.length_cons, List.length_nil]
    omega
  · exact h

theorem evictSpotsLoop_sameCore (fuel : Nat) (spots : List Spot) (s : Controller) :
    SameCore s (evictSpotsLoop fuel spots s).2 ∧
    (PoolOK s → PoolOK (evictSpotsLoop fuel spots s).2) := by
  induction fuel generalizing spots s with
  | zero => exact ⟨sameCore_rfl s, id⟩
  | succ n ih =>
    unfold evictSpotsLoop
    by_cases hlen : MAX_SPOTS ≤ spots.length
    · rw [if_pos hlen]
      cases hr : removeFirstFadingSpotLocked spots with
      | some p =>
        obtain ⟨f, rest⟩ := p
        exact ⟨sameCore_trans (releaseSpotLocked_sameCore f s) (ih rest _).1,
          fun hp => (ih rest _).2 (releaseSpotLocked_poolOK f s hp)⟩
      | none =>
        cases spots with
        | nil => exact ⟨sameCore_rfl s, id⟩
        | cons sp rest =>
          exact ⟨sameCore_trans (releaseSpotLocked_sameCore sp s) (ih rest _).1,
            fun hp => (ih rest _).2 (releaseSpotLocked_poolOK sp s hp)⟩
    · rw [if_neg hlen]
      exact ⟨sameCore_rfl s, id⟩

theorem createAndAddSpotLocked_sameCore (id : Nat) (spots : List Spot) (s : Controller) :
    SameCore s (createAndAddSpotLocked id spots s).2.2 ∧
    (PoolOK s → PoolOK (createAndAddSpotLocked id spots s).2.2) := by
  unfold createAndAddSpotLocked
  dsimp only
  have hev := evictSpotsLoop_sameCore spots.length spots s
  split
  · rename_i spr hg
    constructor
    · exact sameCore_trans hev.1 ⟨rfl, rfl, rfl, rfl⟩
    · intro hp
      have := hev.2 hp
      unfold PoolOK at this ⊢
      simp only [List.length_dropLast]
      omega
  · exact ⟨sameCore_trans hev.1 ⟨rfl, rfl, rfl, rfl⟩, fun hp => hev.2 hp⟩

theorem setSpotsStep_sameCore (coords : Nat → SpotCoords) (displayId : Int)
    (acc : List Spot × Controller) (id : Nat) :
    SameCore acc.2 (setSpotsStep coords displayId acc id).2 ∧
    (PoolOK acc.2 → PoolOK (setSpotsStep coords displayId acc id).2) := by
  unfold setSpotsStep
  dsimp only
  split
  · constructor
    · exact sameCore_trans (sameCore_rfl _) (pushEvs_sameCore _ _).1
    · intro hp
      unfold PoolOK
      rw [(pushEvs_sameCore _ _).2]
      exact hp
  · have hc := createAndAddSpotLocked_sameCore id acc.1 acc.2
    constructor
    · exact sameCore_trans hc.1 (pushEvs_sameCore _ _).1
    · intro hp
      unfold PoolOK
      rw [(pushEvs_sameCore _ _).2]
      exact hc.2 hp

theorem setSpots_foldl_sameCore (coords : Nat → SpotCoords) (displayId : Int)
    (ids : List Nat) (acc : List Spot × Controller) :
    SameCore acc.2 (ids.foldl (setSpotsStep coords displayId) acc).2 ∧
    (PoolOK acc.2 → PoolOK (ids.foldl (setSpotsStep coords displayId) acc).2) := by
  induction ids generalizing acc with
  | nil => exact ⟨sameCore_rfl _, id⟩
  | cons i rest ih =>
    simp only [List.foldl_cons]
    have hs := setSpotsStep_sameCore coords displayId acc i
    exact ⟨sameCore_trans hs.1 (ih _).1, fun hp => (ih _).2 (hs.2 hp)⟩

theorem fadeOutAndReleaseAllSpotsLocked_sameCore (now : Int) (s : Controller) :
    SameCore s (fadeOutAndReleaseAllSpotsLocked now s) ∧
    (fadeOutAndReleaseAllSpotsLocked now s).recycledSprites = s.recycledSprites := by
  unfold fadeOutAndReleaseAllSpotsLocked
  dsimp only
  split
  · constructor
    · exact sameCore_trans ⟨rfl, rfl, rfl, rfl⟩ (startAnimationLocked_sameCore now _).1
    · rw [(startAnimationLocked_sameCore now _).2]
  · exact ⟨⟨rfl, rfl, rfl, rfl⟩, rfl⟩

theorem loadResourcesLocked_fields (P : Policy) (s : Controller) :
    (loadResourcesLocked P s).viewport = s.viewport ∧
    (loadResourcesLocked P s).presentation = s.presentation ∧
    (loadResourcesLocked P s).recycledSprites = s.recycledSprites ∧
    (loadResourcesLocked P s).spotsByDisplay = s.spotsByDisplay := by
  unfold loadResourcesLocked
  split <;> simp

theorem flagOK_updatePointerLocked (P : Policy) (now : Int) (s : Controller) :
    FlagOK (updatePointerLocked P now s) := by
  by_cases h : s.viewport.isValid = false
  · intro hv
    rw [updatePointerLocked_viewport] at hv
    rw [h] at hv
    cases hv
  · have h' : s.viewport.isValid = true := by simpa using h
    intro _ _
    exact updatePointerLocked_clears_flags P now s h'

theorem poolOK_updatePointerLocked (P : Policy) (now : Int) (s : Controller) (h : PoolOK s) :
    PoolOK (updatePointerLocked P now s) := by
  unfold PoolOK
  rw [updatePointerLocked_recycledSprites]
  exact h

theorem pointerFadeStep_fields (P : Policy) (now timestamp : Int) (s : Controller) :
    (pointerFadeStep P now timestamp s).1.viewport = s.viewport ∧
    (pointerFadeStep P now timestamp s).1.presentation = s.presentation ∧
    (pointerFadeStep P now timestamp s).1.spotsByDisplay = s.spotsByDisplay ∧
    (pointerFadeStep P now timestamp s).1.recycledSprites = s.recycledSprites ∧
    (FlagOK s → FlagOK (pointerFadeStep P now timestamp s).1) := by
  unfold pointerFadeStep
  split
  · dsimp only
    split <;>
      exact ⟨updatePointerLocked_viewport P now _, updatePointerLocked_presentation P now _,
        updatePointerLocked_spotsByDisplay P now _, updatePointerLocked_recycledSprites P now _,
        fun _ => flagOK_updatePointerLocked P now _⟩
  · split
    · dsimp only
      split <;>
        exact ⟨updatePointerLocked_viewport P now _, updatePointerLocked_presentation P now _,
          updatePointerLocked_spotsByDisplay P now _, updatePointerLocked_recycledSprites P now _,
          fun _ => flagOK_updatePointerLocked P now _⟩
    · exact ⟨rfl, rfl, rfl, rfl, fun h => h⟩

theorem spotsFadeLoop_sameCore (frameDelay : ℚ) (spots : List Spot) (s : Controller) :
    SameCore s (spotsFadeLoop frameDelay spots s).2.1 ∧
    (PoolOK s → PoolOK (spotsFadeLoop frameDelay spots s).2.1) := by
  induction spots generalizing s with
  | nil => exact ⟨sameCore_rfl s, id⟩
  | cons sp rest ih =>
    unfold spotsFadeLoop
    by_cases hid : sp.id = Spot.INVALID_ID
    · rw [if_pos hid]
      by_cases ha : sp.alpha - frameDelay / (SPOT_FADE_DURATION : ℚ) ≤ 0
      · rw [if_pos ha]
        exact ⟨sameCore_trans (releaseSpotLocked_sameCore _ s) (ih _).1,
          fun hp => (ih _).2 (releaseSpotLocked_poolOK _ s hp)⟩
      · rw [if_neg ha]
        refine ⟨sameCore_trans (pushEv_sameCore s _).1 (ih _).1, fun hp => ?_⟩
        refine (ih _).2 ?_
        unfold PoolOK
        rw [(pushEv_sameCore s _).2]
        exact hp
    · rw [if_neg hid]
      exact ⟨(ih s).1, (ih s).2⟩

theorem displaysFadeLoop_sameCore (frameDelay : ℚ) (ds : List (Int × List Spot))
    (s : Controller) :
    SameCore s (displaysFadeLoop frameDelay ds s).2.1 ∧
    (PoolOK s → PoolOK (displaysFadeLoop frameDelay ds s).2.1) := by
  induction ds generalizing s with
  | nil => exact ⟨sameCore_rfl s, id⟩
  | cons dl rest ih =>
    obtain ⟨d, spots⟩ := dl
    unfold displaysFadeLoop
    have h1 := spotsFadeLoop_sameCore frameDelay spots s
    exact ⟨sameCore_trans h1.1 (ih _).1, fun hp => (ih _).2 (h1.2 hp)⟩

theorem doBitmapAnimationLocked_sameCore (timestamp : Int) (s : Controller) :
    SameCore s (doBitmapAnimationLocked timestamp s).1 ∧
    (doBitmapAnimationLocked timestamp s).1.recycledSprites = s.recycledSprites := by
  unfold doBitmapAnimationLocked
  split
  · exact ⟨sameCore_rfl s, rfl⟩
  · split
    · exact ⟨⟨rfl, rfl, rfl, rfl⟩, rfl⟩
    · exact ⟨sameCore_rfl s, rfl⟩

theorem doFadingAnimationLocked_inv (P : Policy) (now timestamp : Int) (s : Controller) :
    (FlagOK s → FlagOK (doFadingAnimationLocked P now timestamp s).1) ∧
    (PoolOK s → PoolOK (doFadingAnimationLocked P now timestamp s).1) := by
  unfold doFadingAnimationLocked
  dsimp only
  have hpf := pointerFadeStep_fields P now timestamp s
  have hd := displaysFadeLoop_sameCore ((timestamp - s.animationTime : Int) : ℚ)
    (pointerFadeStep P now timestamp s).1.spotsByDisplay (pointerFadeStep P now timestamp s).1
  constructor
  · intro hf
    have hf1 := hpf.2.2.2.2 hf
    have hf2 := flagOK_of_sameCore hd.1 hf1
    intro hv hp
    exact hf2 (by simpa using hv) (by simpa using hp)
  · intro hp
    have hp1 : PoolOK (pointerFadeStep P now timestamp s).1 := by
      unfold PoolOK
      rw [hpf.2.2.2.1]
      exact hp
    have hp2 := hd.2 hp1
    unfold PoolOK at hp2 ⊢
    simpa using hp2

theorem doAnimate_inv (P : Policy) (now timestamp : Int) (s : Controller) :
    (FlagOK s → FlagOK (doAnimate P now timestamp s)) ∧
    (PoolOK s → PoolOK (doAnimate P now timestamp s)) := by
  unfold doAnimate
  dsimp only
  set s0 : Controller := { s with animationPending := false } with hs0
  have h0 : FlagOK s → FlagOK s0 := by
    intro hf hv hp
    exact hf hv hp
  have h0p : PoolOK s → PoolOK s0 := fun hp => hp
  have h1 := doFadingAnimationLocked_inv P now timestamp s0
  have h2 := doBitmapAnimationLocked_sameCore timestamp
    (doFadingAnimationLocked P now timestamp s0).1
  constructor
  · intro hf
    have hf2 := flagOK_of_sameCore h2.1 (h1.1 (h0 hf))
    split
    · exact flagOK_of_sameCore (startAnimationLocked_sameCore now _).1 hf2
    · exact hf2
  · intro hp
    have hp2 : PoolOK (doBitmapAnimationLocked timestamp
        (doFadingAnimationLocked P now timestamp s0).1).1 := by
      unfold PoolOK
      rw [h2.2]
      exact h1.2 (h0p hp)
    split
    · unfold PoolOK
      rw [(startAnimationLocked_sameCore now _).2]
      exact hp2
    · exact hp2

theorem setPositionLocked_inv (P : Policy) (now : Int) (x y : ℚ) (s : Controller) :
    (FlagOK s → FlagOK (setPositionLocked P now x y s)) ∧
    (PoolOK s → PoolOK (setPositionLocked P now x y s)) := by
  unfold setPositionLocked
  split
  · exact ⟨fun h => h, fun h => h⟩
  · exact ⟨fun _ => flagOK_updatePointerLocked P now _,
      fun hp => poolOK_updatePointerLocked P now _ hp⟩

theorem move_inv (P : Policy) (now : Int) (dx dy : ℚ) (s : Controller) :
    (FlagOK s → FlagOK (move P now dx dy s)) ∧
    (PoolOK s → PoolOK (move P now dx dy s)) := by
  unfold move
  split
  · exact ⟨fun h => h, fun h => h⟩
  · exact setPositionLocked_inv P now _ _ s

theorem setButtonState_inv (b : Int) (s : Controller) :
    (FlagOK s → FlagOK (setButtonState b s)) ∧
    (PoolOK s → PoolOK (setButtonState b s)) := by
  unfold setButtonState
  split
  · exact ⟨fun h hv hp => h hv hp, fun h => h⟩
  · exact ⟨fun h => h, fun h => h⟩

theorem fade_inv (P : Policy) (now : Int) (t : Transition) (s : Controller) :
    (FlagOK s → FlagOK (fade P now t s)) ∧
    (PoolOK s → PoolOK (fade P now t s)) := by
  unfold fade
  dsimp only
  split
  · constructor
    · intro _
      exact flagOK_updatePointerLocked P now _
    · intro hp
      apply poolOK_updatePointerLocked
      unfold PoolOK
      dsimp only
      rw [(removeInactivityTimeoutLocked_sameCore s).2]
      exact hp
  · constructor
    · intro hf
      refine flagOK_of_sameCore ?_ hf
      refine sameCore_trans (removeInactivityTimeoutLocked_sameCore s).1 ?_
      exact sameCore_trans (⟨rfl, rfl, rfl, rfl⟩ :
        SameCore (removeInactivityTimeoutLocked s)
          { removeInactivityTimeoutLocked s with pointerFadeDirection := -1 })
        (startAnimationLocked_sameCore now _).1
    · intro hp
      unfold PoolOK
      rw [(startAnimationLocked_sameCore now _).2]
      dsimp only
      rw [(removeInactivityTimeoutLocked_sameCore s).2]
      exact hp

theorem unfade_inv (P : Policy) (now : Int) (t : Transition) (s : Controller) :
    (FlagOK s → FlagOK (unfade P now t s)) ∧
    (PoolOK s → PoolOK (unfade P now t s)) := by
  unfold unfade
  dsimp only
  split
  · constructor
    · intro _
      exact flagOK_updatePointerLocked P now _
    · intro hp
      apply poolOK_updatePointerLocked
      unfold PoolOK
      dsimp only
      rw [(resetInactivityTimeoutLocked_sameCore s).2]
      exact hp
  · constructor
    · intro hf
      refine flagOK_of_sameCore ?_ hf
      refine sameCore_trans (resetInactivityTimeoutLocked_sameCore s).1 ?_
      exact sameCore_trans (⟨rfl, rfl, rfl, rfl⟩ :
        SameCore (resetInactivityTimeoutLocked s)
          { resetInactivityTimeoutLocked s with pointerFadeDirection := 1 })
        (startAnimationLocked_sameCore now _).1
    · intro hp
      unfold PoolOK
      rw [(startAnimationLocked_sameCore now _).2]
      dsimp only
      rw [(resetInactivityTimeoutLocked_sameCore s).2]
      exact hp

theorem setPresentation_inv (P : Policy) (now : Int) (pres : Presentation) (s : Controller) :
    (FlagOK s → FlagOK (setPresentation P now pres s)) ∧
    (PoolOK s → PoolOK (setPresentation P now pres s)) := by
  unfold setPresentation
  by_cases h1 : s.presentation = pres
  · rw [if_pos h1]
    exact ⟨fun h => h, fun h => h⟩
  · rw [if_neg h1]
    dsimp only
    by_cases h2 : ({ s with presentation := pres, presentationChanged := true } :
        Controller).viewport.isValid = false
    · rw [if_pos h2]
      constructor
      · intro _ hv _
        exact absurd hv (by simpa using h2)
      · intro hp
        exact hp
    · rw [if_neg h2]
      by_cases h3 : pres = Presentation.POINTER
      · rw [if_pos h3]
        constructor
        · intro _
          exact flagOK_updatePointerLocked P now _
        · intro hp
          apply poolOK_updatePointerLocked
          unfold PoolOK
          rw [(fadeOutAndReleaseAllSpotsLocked_sameCore now _).2]
          split <;> exact hp
      · rw [if_neg h3]
        constructor
        · intro _ _ hp
          exact absurd hp h3
        · intro hp
          exact hp

theorem setSpots_inv (now : Int) (coords : Nat → SpotCoords) (ids : List Nat)
    (displayId : Int) (s : Controller) :
    (FlagOK s → FlagOK (setSpots now coords ids displayId s)) ∧
    (PoolOK s → PoolOK (setSpots now coords ids displayId s)) := by
  unfold setSpots
  by_cases hv : s.viewport.isValid = false
  · rw [if_pos hv]
    exact ⟨fun h => h, fun h => h⟩
  · rw [if_neg hv]
    dsimp only
    have hc1 : SameCore s (pushEv s Ev.openTransaction) :=
      (pushEv_sameCore s Ev.openTransaction).1
    have hfold := setSpots_foldl_sameCore coords displayId ids
      ((lookupRes displayId s.spotsByDisplay).getD [], pushEv s Ev.openTransaction)
    have hp1 : PoolOK s → PoolOK (pushEv s Ev.openTransaction) := by
      intro hp
      unfold PoolOK
      rw [(pushEv_sameCore s Ev.openTransaction).2]
      exact hp
    constructor
    · intro hf
      split
      · refine flagOK_of_sameCore ?_ hf
        refine sameCore_trans (sameCore_trans hc1 hfold.1) ?_
        exact sameCore_trans (startAnimationLocked_sameCore now _).1 ⟨rfl, rfl, rfl, rfl⟩
      · refine flagOK_of_sameCore ?_ hf
        exact sameCore_trans (sameCore_trans hc1 hfold.1) ⟨rfl, rfl, rfl, rfl⟩
    · intro hp
      split
      · have hx : PoolOK (startAnimationLocked now
            (ids.foldl (setSpotsStep coords displayId)
              ((lookupRes displayId s.spotsByDisplay).getD [],
                pushEv s Ev.openTransaction)).2) := by
          unfold PoolOK
          rw [(startAnimationLocked_sameCore now _).2]
          exact hfold.2 (hp1 hp)
        exact hx
      · exact hfold.2 (hp1 hp)

theorem clearSpots_inv (now : Int) (s : Controller) :
    (FlagOK s → FlagOK (clearSpots now s)) ∧
    (PoolOK s → PoolOK (clearSpots now s)) := by
  unfold clearSpots
  split
  · exact ⟨fun h => h, fun h => h⟩
  · constructor
    · intro hf
      exact flagOK_of_sameCore (fadeOutAndReleaseAllSpotsLocked_sameCore now s).1 hf
    · intro hp
      unfold PoolOK
      rw [(fadeOutAndReleaseAllSpotsLocked_sameCore now s).2]
      exact hp

theorem setInactivityTimeout_inv (t : InactivityTimeout) (s : Controller) :
    (FlagOK s → FlagOK (setInactivityTimeout t s)) ∧
    (PoolOK s → PoolOK (setInactivityTimeout t s)) := by
  unfold setInactivityTimeout
  split
  · constructor
    · intro hf
      refine flagOK_of_sameCore ?_ hf
      exact sameCore_trans (⟨rfl, rfl, rfl, rfl⟩ :
        SameCore s { s with inactivityTimeout := t })
        (resetInactivityTimeoutLocked_sameCore _).1
    · intro hp
      unfold PoolOK
      rw [(resetInactivityTimeoutLocked_sameCore _).2]
      exact hp
  · exact ⟨fun h => h, fun h => h⟩

theorem reloadPointerResources_inv (P : Policy) (now : Int) (s : Controller) :
    (FlagOK s → FlagOK (reloadPointerResources P now s)) ∧
    (PoolOK s → PoolOK (reloadPointerResources P now s)) := by
  unfold reloadPointerResources
  constructor
  · intro _
    exact flagOK_updatePointerLocked P now _
  · intro hp
    apply poolOK_updatePointerLocked
    unfold PoolOK
    rw [(loadResourcesLocked_fields P s).2.2.1]
    exact hp

theorem setDisplayViewport_inv (P : Policy) (now : Int) (v : DisplayViewport) (s : Controller) :
    (FlagOK s → FlagOK (setDisplayViewport P now v s)) ∧
    (PoolOK s → PoolOK (setDisplayViewport P now v s)) := by
  unfold setDisplayViewport
  by_cases h : v = s.viewport
  · rw [if_pos h]
    exact ⟨fun hf => hf, fun hp => hp⟩
  · rw [if_neg h]
    dsimp only
    constructor
    · intro _
      exact flagOK_updatePointerLocked P now _
    · intro hp
      apply poolOK_updatePointerLocked
      split
      · unfold PoolOK
        rw [(fadeOutAndReleaseAllSpotsLocked_sameCore now _).2]
        split
        · rw [(loadResourcesLocked_fields P _).2.2.1]
          exact hp
        · exact hp
      · split
        · exact hp
        · exact hp

theorem updatePointerIcon_inv (P : Policy) (now : Int) (iconId : Int) (s : Controller) :
    (FlagOK s → FlagOK (updatePointerIcon P now iconId s)) ∧
    (PoolOK s → PoolOK (updatePointerIcon P now iconId s)) := by
  unfold updatePointerIcon
  split
  · exact ⟨fun _ => flagOK_updatePointerLocked P now _,
      fun hp => poolOK_updatePointerLocked P now _ hp⟩
  · exact ⟨fun h => h, fun h => h⟩

theorem setCustomPointerIcon_inv (P : Policy) (now : Int) (icon : SpriteIcon) (s : Controller) :
    (FlagOK s → FlagOK (setCustomPointerIcon P now icon s)) ∧
    (PoolOK s → PoolOK (setCustomPointerIcon P now icon s)) := by
  unfold setCustomPointerIcon
  exact ⟨fun _ => flagOK_updatePointerLocked P now _,
    fun hp => poolOK_updatePointerLocked P now _ hp⟩

theorem doInactivityTimeout_inv (P : Policy) (now : Int) (s : Controller) :
    (FlagOK s → FlagOK (doInactivityTimeout P now s)) ∧
    (PoolOK s → PoolOK (doInactivityTimeout P now s)) := by
  unfold doInactivityTimeout
  exact fade_inv P now Transition.GRADUAL s

/-- Every reachable controller state respects the recycle-pool capacity
bound and the dirty-flag discipline. -/
theorem reachable_inv {P : Policy} {s : Controller} (h : Reachable P s) :
    PoolOK s ∧ FlagOK s := by
  induction h with
  | init =>
    constructor
    · unfold PoolOK initialState
      simp [MAX_RECYCLED_SPRITES]
    · intro _ _
      exact ⟨rfl, rfl⟩
  | move now dx dy _ ih =>
    exact ⟨(move_inv P now dx dy _).2 ih.1, (move_inv P now dx dy _).1 ih.2⟩
  | setPosition now x y _ ih =>
    exact ⟨(setPositionLocked_inv P now x y _).2 ih.1, (setPositionLocked_inv P now x y _).1 ih.2⟩
  | setButtonState b _ ih =>
    exact ⟨(setButtonState_inv b _).2 ih.1, (setButtonState_inv b _).1 ih.2⟩
  | fade now t _ ih =>
    exact ⟨(fade_inv P now t _).2 ih.1, (fade_inv P now t _).1 ih.2⟩
  | unfade now t _ ih =>
    exact ⟨(unfade_inv P now t _).2 ih.1, (unfade_inv P now t _).1 ih.2⟩
  | setPresentation now pres _ ih =>
    exact ⟨(setPresentation_inv P now pres _).2 ih.1, (setPresentation_inv P now pres _).1 ih.2⟩
  | setSpots now coords ids displayId _ ih =>
    exact ⟨(setSpots_inv now coords ids displayId _).2 ih.1,
      (setSpots_inv now coords ids displayId _).1 ih.2⟩
  | clearSpots now _ ih =>
    exact ⟨(clearSpots_inv now _).2 ih.1, (clearSpots_inv now _).1 ih.2⟩
  | setInactivityTimeout t _ ih =>
    exact ⟨(setInactivityTimeout_inv t _).2 ih.1, (setInactivityTimeout_inv t _).1 ih.2⟩
  | reloadPointerResources now _ ih =>
    exact ⟨(reloadPointerResources_inv P now _).2 ih.1, (reloadPointerResources_inv P now _).1 ih.2⟩
  | setDisplayViewport now v _ ih =>
    exact ⟨(setDisplayViewport_inv P now v _).2 ih.1, (setDisplayViewport_inv P now v _).1 ih.2⟩
  | updatePointerIcon now iconId _ ih =>
    exact ⟨(updatePointerIcon_inv P now iconId _).2 ih.1, (updatePointerIcon_inv P now iconId _).1 ih.2⟩
  | setCustomPointerIcon now icon _ ih =>
    exact ⟨(setCustomPointerIcon_inv P now icon _).2 ih.1,
      (setCustomPointerIcon_inv P now icon _).1 ih.2⟩
  | doAnimate now timestamp _ ih =>
    exact ⟨(doAnimate_inv P now timestamp _).2 ih.1, (doAnimate_inv P now timestamp _).1 ih.2⟩
  | doInactivityTimeout now _ ih =>
    exact ⟨(doInactivityTimeout_inv P now _).2 ih.1, (doInactivityTimeout_inv P now _).1 ih.2⟩

/-! ### C5: IMMEDIATE fade and unfade -/

theorem updatePointerLocked_pending_of_flagOK (P : Policy) (now : Int) (s : Controller)
    (h : FlagOK s) :
    (updatePointerLocked P now s).animationPending = s.animationPending := by
  by_cases hv : s.viewport.isValid = false
  · unfold updatePointerLocked
    rw [if_pos hv]
  · have hv' : s.viewport.isValid = true := by simpa using hv
    have harm : updatePointerArmsAnimation P s = false :=
      updatePointerArmsAnimation_eq_false P s (h hv')
    exact (updatePointerLocked_pending P now s harm).1

theorem updatePointerLocked_events (P : Policy) (now : Int) (s : Controller)
    (h : s.viewport.isValid = true) :
    (updatePointerLocked P now s).events = s.events ++ updatePointerEvents P s := by
  unfold updatePointerLocked
  rw [if_neg (by simp [h])]

theorem openTransaction_mem_updatePointerEvents (P : Policy) (s : Controller) :
    Ev.openTransaction ∈ updatePointerEvents P s := by
  unfold updatePointerEvents
  simp

theorem newEvents_of_append {s t : Controller} (l : List Ev) (h : t.events = s.events ++ l) :
    newEvents s t = l := by
  unfold newEvents
  rw [h, List.drop_left]

/-- C5: in every reachable state, `fade(IMMEDIATE)` sets the pointer alpha
to exactly 0 and `unfade(IMMEDIATE)` to exactly 1, each clearing the fade
direction; neither call arms a pending animation (`animationPending` is
exactly what it was); and each pushes state synchronously — when a valid
viewport is set, the call's new events contain a rendering-transaction
push.  (The no-arming part needs reachability: in an artificial state with
a stale dirty flag and an animated requested icon, the synchronous push
itself would re-arm the animation loop; the dirty-flag discipline rules
such states out.) -/
theorem claimC5_immediate (P : Policy) (now : Int) (s : Controller) (hr : Reachable P s) :
    (fade P now Transition.IMMEDIATE s).pointerAlpha = 0 ∧
    (fade P now Transition.IMMEDIATE s).pointerFadeDirection = 0 ∧
    (fade P now Transition.IMMEDIATE s).animationPending = s.animationPending ∧
    (unfade P now Transition.IMMEDIATE s).pointerAlpha = 1 ∧
    (unfade P now Transition.IMMEDIATE s).pointerFadeDirection = 0 ∧
    (unfade P now Transition.IMMEDIATE s).animationPending = s.animationPending ∧
    (s.viewport.isValid = true →
      Ev.openTransaction ∈ newEvents s (fade P now Transition.IMMEDIATE s) ∧
      Ev.openTransaction ∈ newEvents s (unfade P now Transition.IMMEDIATE s)) := by
  have hflag : FlagOK s := (reachable_inv hr).2
  refine ⟨?_, ?_, ?_, ?_, ?_, ?_, ?_⟩
  · show (updatePointerLocked P now
      { removeInactivityTimeoutLocked s with
        pointerFadeDirection := 0, pointerAlpha := 0 }).pointerAlpha = 0
    rw [updatePointerLocked_pointerAlpha]
  · show (updatePointerLocked P now
      { removeInactivityTimeoutLocked s with
        pointerFadeDirection := 0, pointerAlpha := 0 }).pointerFadeDirection = 0
    rw [updatePointerLocked_pointerFadeDirection]
  · show (updatePointerLocked P now
      { removeInactivityTimeoutLocked s with
        pointerFadeDirection := 0, pointerAlpha := 0 }).animationPending = s.animationPending
    exact updatePointerLocked_pending_of_flagOK P now _ (fun hv hp => hflag hv hp)
  · show (updatePointerLocked P now
      { resetInactivityTimeoutLocked s with
        pointerFadeDirection := 0, pointerAlpha := 1 }).pointerAlpha = 1
    rw [updatePointerLocked_pointerAlpha]
  · show (updatePointerLocked P now
      { resetInactivityTimeoutLocked s with
        pointerFadeDirection := 0, pointerAlpha := 1 }).pointerFadeDirection = 0
    rw [updatePointerLocked_pointerFadeDirection]
  · show (updatePointerLocked P now
      { resetInactivityTimeoutLocked s with
        pointerFadeDirection := 0, pointerAlpha := 1 }).animationPending = s.animationPending
    exact updatePointerLocked_pending_of_flagOK P now _ (fun hv hp => hflag hv hp)
  · intro hv
    constructor
    · have he : (fade P now Transition.IMMEDIATE s).events =
          s.events ++ ([Ev.removeTimeoutMessages] ++
            updatePointerEvents P
              { removeInactivityTimeoutLocked s with
                pointerFadeDirection := 0, pointerAlpha := 0 }) := by
        show (updatePointerLocked P now
          { removeInactivityTimeoutLocked s with
            pointerFadeDirection := 0, pointerAlpha := 0 }).events = _
        rw [updatePointerLocked_events P now _ (by exact hv)]
        show (s.events ++ [Ev.removeTimeoutMessages]) ++ _ = _
        rw [List.append_assoc]
      rw [newEvents_of_append _ he]
      exact List.mem_append.mpr (Or.inr (openTransaction_mem_updatePointerEvents P _))
    · have he : (unfade P now Transition.IMMEDIATE s).events =
          s.events ++ ([Ev.removeTimeoutMessages,
              Ev.sendTimeoutMessage
                (if s.inactivityTimeout = InactivityTimeout.SHORT then
                  INACTIVITY_TIMEOUT_DELAY_TIME_SHORT
                else INACTIVITY_TIMEOUT_DELAY_TIME_NORMAL)] ++
            updatePointerEvents P
              { resetInactivityTimeoutLocked s with
                pointerFadeDirection := 0, pointerAlpha := 1 }) := by
        show (updatePointerLocked P now
          { resetInactivityTimeoutLocked s with
            pointerFadeDirection := 0, pointerAlpha := 1 }).events = _
        rw [updatePointerLocked_events P now _ (by exact hv)]
        show (s.events ++ [Ev.removeTimeoutMessages, Ev.sendTimeoutMessage _]) ++ _ = _
        rw [List.append_assoc]
      rw [newEvents_of_append _ he]
      exact List.mem_append.mpr (Or.inr (openTransaction_mem_updatePointerEvents P _))

/-- Witness for C5 at the constructor state (reachable by definition). -/
theorem claimC5_witness :
    (fade examplePolicy 0 Transition.IMMEDIATE (initialState examplePolicy)).pointerAlpha = 0 ∧
    (fade examplePolicy 0 Transition.IMMEDIATE
        (initialState examplePolicy)).pointerFadeDirection = 0 ∧
    (fade examplePolicy 0 Transition.IMMEDIATE (initialState examplePolicy)).animationPending =
      (initialState examplePolicy).animationPending ∧
    (unfade examplePolicy 0 Transition.IMMEDIATE (initialState examplePolicy)).pointerAlpha = 1 ∧
    (unfade examplePolicy 0 Transition.IMMEDIATE
        (initialState examplePolicy)).pointerFadeDirection = 0 ∧
    (unfade examplePolicy 0 Transition.IMMEDIATE (initialState examplePolicy)).animationPending =
      (initialState examplePolicy).animationPending ∧
    ((initialState examplePolicy).viewport.isValid = true →
      Ev.openTransaction ∈ newEvents (initialState examplePolicy)
        (fade examplePolicy 0 Transition.IMMEDIATE (initialState examplePolicy)) ∧
      Ev.openTransaction ∈ newEvents (initialState examplePolicy)
        (unfade examplePolicy 0 Transition.IMMEDIATE (initialState examplePolicy))) :=
  claimC5_immediate examplePolicy 0 (initialState examplePolicy) Reachable.init

/-! ### C7: the recycle pool -/

theorem spotsFadeLoop_single_release (P : Policy) (now timestamp : Int) (s : Controller)
    (sp : Spot) (hid : sp.id = Spot.INVALID_ID)
    (ha : sp.alpha - ((timestamp - s.animationTime : Int) : ℚ) / (SPOT_FADE_DURATION : ℚ) ≤ 0) :
    spotsFadeLoop ((timestamp - s.animationTime : Int) : ℚ) [sp]
        (pointerFadeStep P now timestamp s).1 =
      ([], releaseSpotLocked
        { sp with alpha :=
            sp.alpha - ((timestamp - s.animationTime : Int) : ℚ) / (SPOT_FADE_DURATION : ℚ) }
        (pointerFadeStep P now timestamp s).1, false) := by
  unfold spotsFadeLoop
  rw [if_pos hid, if_pos ha]
  rfl

/-- C7 (counterexample): the unconditional "its rendering handle reappears
in the recycle pool afterward" fails when the pool is already at capacity —
exactly the discard case the claim itself describes.  With a full pool and
one almost-faded spot (handle 99), the fading tick removes the spot but
handle 99 does not enter the pool. -/
theorem claimC7_counterexample :
    fullPoolState.recycledSprites.length = MAX_RECYCLED_SPRITES ∧
    fullPoolState.spotsByDisplay =
      [(0, [{ Spot.make Spot.INVALID_ID 99 with alpha := 1/100 }])] ∧
    (doFadingAnimationLocked examplePolicy 0 500001000 fullPoolState).1.spotsByDisplay = [] ∧
    (99 : Nat) ∉
      (doFadingAnimationLocked examplePolicy 0 500001000 fullPoolState).1.recycledSprites := by
  have hid : ({ Spot.make Spot.INVALID_ID 99 with alpha := (1/100 : ℚ) } : Spot).id =
      Spot.INVALID_ID := rfl
  have ha : ({ Spot.make Spot.INVALID_ID 99 with alpha := (1/100 : ℚ) } : Spot).alpha -
      ((500001000 - fullPoolState.animationTime : Int) : ℚ) / (SPOT_FADE_DURATION : ℚ) ≤ 0 := by
    norm_num [fullPoolState, scenarioState, initialState, Spot.make, SPOT_FADE_DURATION]
  have hsf := spotsFadeLoop_single_release examplePolicy 0 500001000 fullPoolState
    { Spot.make Spot.INVALID_ID 99 with alpha := (1/100 : ℚ) } hid ha
  have hpf := pointerFadeStep_fields examplePolicy 0 500001000 fullPoolState
  have hspots : (pointerFadeStep examplePolicy 0 500001000 fullPoolState).1.spotsByDisplay =
      [(0, [{ Spot.make Spot.INVALID_ID 99 with alpha := (1/100 : ℚ) }])] := hpf.2.2.1
  have hrel : (releaseSpotLocked
      { Spot.make Spot.INVALID_ID 99 with
          alpha := (1/100 : ℚ) -
            ((500001000 - fullPoolState.animationTime : Int) : ℚ) / (SPOT_FADE_DURATION : ℚ) }
      (pointerFadeStep examplePolicy 0 500001000 fullPoolState).1).recycledSprites =
      fullPoolState.recycledSprites := by
    unfold releaseSpotLocked pushEv
    dsimp only
    rw [if_neg (by rw [hpf.2.2.2.1]; decide)]
    exact hpf.2.2.2.1
  have hmain : (doFadingAnimationLocked examplePolicy 0 500001000 fullPoolState).1 =
      { releaseSpotLocked
          { Spot.make Spot.INVALID_ID 99 with
              alpha := (1/100 : ℚ) -
                ((500001000 - fullPoolState.animationTime : Int) : ℚ) /
                  (SPOT_FADE_DURATION : ℚ) }
          (pointerFadeStep examplePolicy 0 500001000 fullPoolState).1 with
        spotsByDisplay := ([] : List (Int × List Spot)) } := by
    unfold doFadingAnimationLocked displaysFadeLoop
    dsimp only
    rw [hspots]
    dsimp only
    rw [hsf]
    rfl
  refine ⟨rfl, rfl, ?_, ?_⟩
  · rw [hmain]
  · rw [hmain]
    show (99 : Nat) ∉ (releaseSpotLocked _ _).recycledSprites
    rw [hrel]
    decide

/-- C7 (amended): releasing a spot clears its handle's icon and pushes the
handle onto the recycle pool if and only if the pool currently holds fewer
than `MAX_RECYCLED_SPRITES` handles (otherwise the handle is discarded); in
every reachable state the recycle pool holds at most
`MAX_RECYCLED_SPRITES` handles; and when the animation tick removes a
faded-out spot while the pool has spare capacity, the spot's rendering
handle reappears in the recycle pool (with a full pool it is discarded, as
the counterexample shows). -/
theorem claimC7_poolRecycling (P : Policy) :
    (∀ (sp : Spot) (s : Controller),
      (releaseSpotLocked sp s).events = s.events ++ [Ev.spriteClearIcon sp.sprite] ∧
      (releaseSpotLocked sp s).recycledSprites =
        (if s.recycledSprites.length < MAX_RECYCLED_SPRITES then
          s.recycledSprites ++ [sp.sprite]
        else s.recycledSprites) ∧
      (sp.sprite ∈ (releaseSpotLocked sp s).recycledSprites ↔
        s.recycledSprites.length < MAX_RECYCLED_SPRITES ∨ sp.sprite ∈ s.recycledSprites)) ∧
    (∀ s : Controller, Reachable P s →
      s.recycledSprites.length ≤ MAX_RECYCLED_SPRITES) ∧
    (∀ (now timestamp : Int) (s : Controller) (d : Int) (sp : Spot),
      s.spotsByDisplay = [(d, [sp])] → sp.id = Spot.INVALID_ID →
      sp.alpha - ((timestamp - s.animationTime : Int) : ℚ) / (SPOT_FADE_DURATION : ℚ) ≤ 0 →
      s.recycledSprites.length < MAX_RECYCLED_SPRITES →
      sp.sprite ∈ (doFadingAnimationLocked P now timestamp s).1.recycledSprites ∧
      (doFadingAnimationLocked P now timestamp s).1.spotsByDisplay = []) := by
  refine ⟨?_, ?_, ?_⟩
  · intro sp s
    unfold releaseSpotLocked pushEv
    dsimp only
    by_cases h : s.recycledSprites.length < MAX_RECYCLED_SPRITES
    · rw [if_pos h, if_pos h]
      refine ⟨rfl, rfl, ?_⟩
      simp [h]
    · rw [if_neg h, if_neg h]
      refine ⟨rfl, rfl, ?_⟩
      simp [h]
  · intro s hr
    exact (reachable_inv hr).1
  · intro now timestamp s d sp hsd hid ha hroom
    have hpf := pointerFadeStep_fields P now timestamp s
    have hspots : (pointerFadeStep P now timestamp s).1.spotsByDisplay = [(d, [sp])] := by
      rw [hpf.2.2.1, hsd]
    have hsf := spotsFadeLoop_single_release P now timestamp s sp hid ha
    have hmain : (doFadingAnimationLocked P now timestamp s).1 =
        { releaseSpotLocked
            { sp with alpha :=
                sp.alpha - ((timestamp - s.animationTime : Int) : ℚ) / (SPOT_FADE_DURATION : ℚ) }
            (pointerFadeStep P now timestamp s).1 with
          spotsByDisplay := ([] : List (Int × List Spot)) } := by
      unfold doFadingAnimationLocked displaysFadeLoop
      dsimp only
      rw [hspots]
      dsimp only
      rw [hsf]
      rfl
    constructor
    · rw [hmain]
      show sp.sprite ∈ (releaseSpotLocked _ _).recycledSprites
      unfold releaseSpotLocked pushEv
      dsimp only
      rw [if_pos (by rw [hpf.2.2.2.1]; exact hroom)]
      rw [hpf.2.2.2.1]
      simp
    · rw [hmain]

/-- Witness for C7: with spare pool capacity, the faded-out spot's handle
(99) reappears in the recycle pool after the tick that removes it; and the
reachable constructor state respects the pool bound. -/
theorem claimC7_witness :
    ((99 : Nat) ∈
        (doFadingAnimationLocked examplePolicy 0 500001000 sparePoolState).1.recycledSprites ∧
      (doFadingAnimationLocked examplePolicy 0 500001000 sparePoolState).1.spotsByDisplay = []) ∧
    (initialState examplePolicy).recycledSprites.length ≤ MAX_RECYCLED_SPRITES := by
  constructor
  · exact (claimC7_poolRecycling examplePolicy).2.2 0 500001000 sparePoolState 0
      { Spot.make Spot.INVALID_ID 99 with alpha := (1/100 : ℚ) } rfl rfl
      (by norm_num [sparePoolState, scenarioState, initialState, Spot.make, SPOT_FADE_DURATION])
      (by decide)
  · exact (claimC7_poolRecycling examplePolicy).2.1 _ Reachable.init

/-! ### C6: the setDisplayViewport contract -/

theorem getBoundsLocked_valid (s : Controller) (h : s.viewport.isValid = true) :
    getBoundsLocked s =
      some ((s.viewport.logicalLeft : ℚ), (s.viewport.logicalTop : ℚ),
        (s.viewport.logicalRight : ℚ) - 1, (s.viewport.logicalBottom : ℚ) - 1) := by
  unfold getBoundsLocked
  simp [h]

theorem loadResourcesLocked_loaded (P : Policy) (s : Controller)
    (h : s.viewport.isValid = true) :
    (loadResourcesLocked P s).resources = P.pointerResourcesFor s.viewport.displayId ∧
    (loadResourcesLocked P s).pointerIcon = P.pointerIconFor s.viewport.displayId ∧
    (loadResourcesLocked P s).pointerX = s.pointerX ∧
    (loadResourcesLocked P s).pointerY = s.pointerY ∧
    (loadResourcesLocked P s).events = s.events := by
  unfold loadResourcesLocked
  rw [if_neg (by simp [h])]
  exact ⟨rfl, rfl, rfl, rfl, rfl⟩

theorem loadResourcesLocked_events (P : Policy) (s : Controller) :
    (loadResourcesLocked P s).events = s.events := by
  unfold loadResourcesLocked
  split
  · rfl
  · rfl

theorem fadeOutAndReleaseAllSpotsLocked_fields (now : Int) (s : Controller) :
    (fadeOutAndReleaseAllSpotsLocked now s).pointerX = s.pointerX ∧
    (fadeOutAndReleaseAllSpotsLocked now s).pointerY = s.pointerY ∧
    (fadeOutAndReleaseAllSpotsLocked now s).resources = s.resources ∧
    (fadeOutAndReleaseAllSpotsLocked now s).pointerIcon = s.pointerIcon ∧
    (fadeOutAndReleaseAllSpotsLocked now s).additionalMouseResources =
      s.additionalMouseResources ∧
    (fadeOutAndReleaseAllSpotsLocked now s).viewport = s.viewport ∧
    (∃ l, (fadeOutAndReleaseAllSpotsLocked now s).events = s.events ++ l) ∧
    (∀ dl ∈ (fadeOutAndReleaseAllSpotsLocked now s).spotsByDisplay, ∀ sp ∈ dl.2,
      sp.id = Spot.INVALID_ID) := by
  unfold fadeOutAndReleaseAllSpotsLocked startAnimationLocked
  dsimp only
  have hall : ∀ dl ∈ (s.spotsByDisplay.map fun dl =>
      (dl.1, dl.2.map fun sp => { sp with id := Spot.INVALID_ID })), ∀ sp ∈ dl.2,
      sp.id = Spot.INVALID_ID := by
    intro dl hdl sp hsp
    simp only [List.mem_map] at hdl
    obtain ⟨dl0, -, rfl⟩ := hdl
    simp only [List.mem_map] at hsp
    obtain ⟨sp0, -, rfl⟩ := hsp
    rfl
  split
  · split
    · exact ⟨rfl, rfl, rfl, rfl, rfl, rfl, ⟨[], by simp⟩, hall⟩
    · exact ⟨rfl, rfl, rfl, rfl, rfl, rfl, ⟨[Ev.requestVsync], rfl⟩, hall⟩
  · exact ⟨rfl, rfl, rfl, rfl, rfl, rfl, ⟨[], by simp⟩, hall⟩

theorem openTransaction_newEvents (P : Policy) (now : Int) (s T : Controller)
    (hvv : T.viewport.isValid = true) (h : ∃ l, T.events = s.events ++ l) :
    Ev.openTransaction ∈ newEvents s (updatePointerLocked P now T) := by
  obtain ⟨l, hl⟩ := h
  rw [newEvents_of_append (l ++ updatePointerEvents P T) (by
    rw [updatePointerLocked_events P now T hvv, hl, List.append_assoc])]
  exact List.mem_append.mpr (Or.inr (openTransaction_mem_updatePointerEvents P T))

/-- C6 (counterexample): the claim quantifies over every viewport argument,
but when the new viewport is *invalid* (e.g. the display-identity-changing
call `setDisplayViewport(invalid)`), the code stores position `(0, 0)` —
not the new viewport's midpoint, which would be `(-1/2, -1/2)` — and does
not reload resources. -/
theorem claimC6_counterexample :
    DisplayViewport.invalid ≠ scenarioState.viewport ∧
    scenarioState.viewport.displayId ≠ DisplayViewport.invalid.displayId ∧
    (setDisplayViewport examplePolicy 0 DisplayViewport.invalid scenarioState).pointerX = 0 ∧
    ((DisplayViewport.invalid.logicalLeft : ℚ) +
        ((DisplayViewport.invalid.logicalRight : ℚ) - 1)) * (1/2) = -(1/2) ∧
    (0 : ℚ) ≠ -(1/2) ∧
    (setDisplayViewport examplePolicy 0 DisplayViewport.invalid scenarioState).resources =
      scenarioState.resources ∧
    scenarioState.resources ≠
      examplePolicy.pointerResourcesFor DisplayViewport.invalid.displayId := by
  refine ⟨by decide, by decide, ?_, by norm_num [DisplayViewport.invalid], by norm_num, ?_,
    by decide⟩
  · unfold setDisplayViewport
    rw [if_neg (by decide)]
    dsimp only
    rw [if_pos (by decide)]
    rw [show getBoundsLocked { scenarioState with viewport := DisplayViewport.invalid } =
        none from rfl]
    rw [updatePointerLocked_pointerX]
    rw [(fadeOutAndReleaseAllSpotsLocked_fields 0 _).1]
  · unfold setDisplayViewport
    rw [if_neg (by decide)]
    dsimp only
    rw [if_pos (by decide)]
    rw [show getBoundsLocked { scenarioState with viewport := DisplayViewport.invalid } =
        none from rfl]
    rw [updatePointerLocked_resources]
    rw [(fadeOutAndReleaseAllSpotsLocked_fields 0 _).2.2.1]

/-- C6 (amended): for every *valid* new viewport `v`, `setDisplayViewport(v)`
is a no-op when `v` equals the current viewport; when the display identity
or the unrotated size changes, it recenters the pointer position to the new
viewport's midpoint, reloads resources from the policy, and marks every
spot on every display as fading out; when neither changes but the rotation
does, it reprojects the position through the rotation transform and leaves
the spot map and the loaded resources untouched; and whenever `v` differs
from the current viewport the call concludes with a synchronous state push
(a rendering transaction among its new events). -/
theorem claimC6_setDisplayViewport (P : Policy) (now : Int) (v : DisplayViewport)
    (s : Controller) (hv : v.isValid = true) :
    (v = s.viewport → setDisplayViewport P now v s = s) ∧
    (v ≠ s.viewport →
      (s.viewport.displayId ≠ v.displayId ∨
        (getNonRotatedSize s.viewport).1 ≠ (getNonRotatedSize v).1 ∨
        (getNonRotatedSize s.viewport).2 ≠ (getNonRotatedSize v).2) →
      (setDisplayViewport P now v s).pointerX =
          ((v.logicalLeft : ℚ) + ((v.logicalRight : ℚ) - 1)) * (1/2) ∧
      (setDisplayViewport P now v s).pointerY =
          ((v.logicalTop : ℚ) + ((v.logicalBottom : ℚ) - 1)) * (1/2) ∧
      (setDisplayViewport P now v s).resources = P.pointerResourcesFor v.displayId ∧
      (setDisplayViewport P now v s).pointerIcon = P.pointerIconFor v.displayId ∧
      (∀ dl ∈ (setDisplayViewport P now v s).spotsByDisplay, ∀ sp ∈ dl.2,
        sp.id = Spot.INVALID_ID)) ∧
    (v ≠ s.viewport →
      s.viewport.displayId = v.displayId →
      getNonRotatedSize s.viewport = getNonRotatedSize v →
      s.viewport.orientation ≠ v.orientation →
      (setDisplayViewport P now v s).pointerX =
          (rotatePosition s.viewport v s.pointerX s.pointerY).1 ∧
      (setDisplayViewport P now v s).pointerY =
          (rotatePosition s.viewport v s.pointerX s.pointerY).2 ∧
      (setDisplayViewport P now v s).spotsByDisplay = s.spotsByDisplay ∧
      (setDisplayViewport P now v s).resources = s.resources ∧
      (setDisplayViewport P now v s).pointerIcon = s.pointerIcon ∧
      (setDisplayViewport P now v s).additionalMouseResources =
        s.additionalMouseResources) ∧
    (v ≠ s.viewport →
      Ev.openTransaction ∈ newEvents s (setDisplayViewport P now v s)) := by
  refine ⟨?_, ?_, ?_, ?_⟩
  · intro h
    unfold setDisplayViewport
    rw [if_pos h]
  · intro hne hc
    unfold setDisplayViewport
    rw [if_neg hne]
    dsimp only
    rw [if_pos hc]
    rw [getBoundsLocked_valid _ (show ({ s with viewport := v } :
      Controller).viewport.isValid = true from hv)]
    dsimp only
    refine ⟨?_, ?_, ?_, ?_, ?_⟩
    · rw [updatePointerLocked_pointerX, (fadeOutAndReleaseAllSpotsLocked_fields now _).1,
        (loadResourcesLocked_loaded P _ (by exact hv)).2.2.1]
    · rw [updatePointerLocked_pointerY, (fadeOutAndReleaseAllSpotsLocked_fields now _).2.1,
        (loadResourcesLocked_loaded P _ (by exact hv)).2.2.2.1]
    · rw [updatePointerLocked_resources, (fadeOutAndReleaseAllSpotsLocked_fields now _).2.2.1,
        (loadResourcesLocked_loaded P _ (by exact hv)).1]
    · rw [updatePointerLocked_pointerIcon,
        (fadeOutAndReleaseAllSpotsLocked_fields now _).2.2.2.1,
        (loadResourcesLocked_loaded P _ (by exact hv)).2.1]
    · rw [updatePointerLocked_spotsByDisplay]
      exact (fadeOutAndReleaseAllSpotsLocked_fields now _).2.2.2.2.2.2.2
  · intro hne hid hsize hrot
    unfold setDisplayViewport
    rw [if_neg hne]
    dsimp only
    rw [if_neg (by
      push_neg
      exact ⟨hid, congrArg Prod.fst hsize, congrArg Prod.snd hsize⟩)]
    rw [if_pos hrot]
    exact ⟨updatePointerLocked_pointerX P now _, updatePointerLocked_pointerY P now _,
      updatePointerLocked_spotsByDisplay P now _, updatePointerLocked_resources P now _,
      updatePointerLocked_pointerIcon P now _,
      updatePointerLocked_additionalMouseResources P now _⟩
  · intro hne
    unfold setDisplayViewport
    rw [if_neg hne]
    dsimp only
    split
    · rw [getBoundsLocked_valid _ (show ({ s with viewport := v } :
        Controller).viewport.isValid = true from hv)]
      dsimp only
      apply openTransaction_newEvents
      · rw [(fadeOutAndReleaseAllSpotsLocked_fields now _).2.2.2.2.2.1,
          (loadResourcesLocked_fields P _).1]
        exact hv
      · obtain ⟨l, hl⟩ := (fadeOutAndReleaseAllSpotsLocked_fields now _).2.2.2.2.2.2.1
        refine ⟨l, ?_⟩
        rw [hl, loadResourcesLocked_events]
    · split
      · apply openTransaction_newEvents
        · exact hv
        · exact ⟨[], by simp⟩
      · apply openTransaction_newEvents
        · exact hv
        · exact ⟨[], by simp⟩

/-- Witness for C6: the rotation-only change from the scenario viewport to
its 90°-rotated counterpart reprojects the pointer and leaves spots and
resources untouched; the call on an identical viewport is a no-op; and the
push concludes the rotation call. -/
theorem claimC6_witness :
    scenarioViewport90.isValid = true ∧
    (scenarioViewport = scenarioState.viewport →
      setDisplayViewport examplePolicy 0 scenarioViewport scenarioState = scenarioState) ∧
    (scenarioViewport90 ≠ scenarioState.viewport →
      scenarioState.viewport.displayId = scenarioViewport90.displayId →
      getNonRotatedSize scenarioState.viewport = getNonRotatedSize scenarioViewport90 →
      scenarioState.viewport.orientation ≠ scenarioViewport90.orientation →
      (setDisplayViewport examplePolicy 0 scenarioViewport90 scenarioState).pointerX =
          (rotatePosition scenarioState.viewport scenarioViewport90
            scenarioState.pointerX scenarioState.pointerY).1 ∧
      (setDisplayViewport examplePolicy 0 scenarioViewport90 scenarioState).pointerY =
          (rotatePosition scenarioState.viewport scenarioViewport90
            scenarioState.pointerX scenarioState.pointerY).2 ∧
      (setDisplayViewport examplePolicy 0 scenarioViewport90 scenarioState).spotsByDisplay =
        scenarioState.spotsByDisplay ∧
      (setDisplayViewport examplePolicy 0 scenarioViewport90 scenarioState).resources =
        scenarioState.resources ∧
      (setDisplayViewport examplePolicy 0 scenarioViewport90 scenarioState).pointerIcon =
        scenarioState.pointerIcon ∧
      (setDisplayViewport examplePolicy 0 scenarioViewport90
          scenarioState).additionalMouseResources =
        scenarioState.additionalMouseResources) ∧
    (scenarioViewport90 ≠ scenarioState.viewport →
      Ev.openTransaction ∈ newEvents scenarioState
        (setDisplayViewport examplePolicy 0 scenarioViewport90 scenarioState)) := by
  refine ⟨rfl, ?_, ?_, ?_⟩
  · exact (claimC6_setDisplayViewport examplePolicy 0 scenarioViewport scenarioState rfl).1
  · exact (claimC6_setDisplayViewport examplePolicy 0 scenarioViewport90 scenarioState rfl).2.2.1
  · exact (claimC6_setDisplayViewport examplePolicy 0 scenarioViewport90 scenarioState rfl).2.2.2

/-! ### C8: error handling -/

theorem getBoundsLocked_invalid (s : Controller) (h : s.viewport.isValid = false) :
    getBoundsLocked s = none := by
  unfold getBoundsLocked
  simp [h]

/-- C8: every geometry-dependent mutator — `setPosition`, `move`,
`setSpots`, `clearSpots` and the rendering push `updatePointerLocked` — is
a silent no-op while no valid viewport is set, returning the state (event
trace included) unchanged; and when a requested non-default icon is not
found in the additional-icon table, the rendering push emits a warning and
falls back to the default icon (the caller still gets a completed push, not
a failure). -/
theorem claimC8_errorHandling (P : Policy) :
    (∀ (now : Int) (x y : ℚ) (s : Controller), s.viewport.isValid = false →
      setPosition P now x y s = s) ∧
    (∀ (now : Int) (dx dy : ℚ) (s : Controller), s.viewport.isValid = false →
      move P now dx dy s = s) ∧
    (∀ (now : Int) (coords : Nat → SpotCoords) (ids : List Nat) (displayId : Int)
        (s : Controller), s.viewport.isValid = false →
      setSpots now coords ids displayId s = s) ∧
    (∀ (now : Int) (s : Controller), s.viewport.isValid = false → clearSpots now s = s) ∧
    (∀ (now : Int) (s : Controller), s.viewport.isValid = false →
      updatePointerLocked P now s = s) ∧
    (∀ (now : Int) (s : Controller), s.viewport.isValid = true →
      s.presentation = Presentation.POINTER →
      (s.pointerIconChanged || s.presentationChanged) = true →
      s.requestedPointerType ≠ P.defaultPointerIconId →
      lookupRes s.requestedPointerType s.additionalMouseResources = none →
      Ev.warnMissingIcon s.requestedPointerType ∈ newEvents s (updatePointerLocked P now s) ∧
      Ev.spriteIcon s.pointerSprite s.pointerIcon ∈
        newEvents s (updatePointerLocked P now s)) := by
  refine ⟨?_, ?_, ?_, ?_, ?_, ?_⟩
  · intro now x y s h
    unfold setPosition setPositionLocked
    rw [getBoundsLocked_invalid s h]
  · intro now dx dy s h
    unfold move
    split
    · rfl
    · unfold setPositionLocked
      rw [getBoundsLocked_invalid s h]
  · intro now coords ids displayId s h
    unfold setSpots
    rw [if_pos h]
  · intro now s h
    unfold clearSpots
    rw [if_pos h]
  · intro now s h
    unfold updatePointerLocked
    rw [if_pos h]
  · intro now s hv hpres hflags hreq hlook
    rw [newEvents_of_append _ (updatePointerLocked_events P now s hv)]
    constructor <;>
    · unfold updatePointerEvents
      simp [hflags, hpres, hreq, hlook]

/-- Witness for C8: `setPosition` on the (invalid-viewport) constructor
state is a no-op, and the push on a state requesting the unknown icon 3333
warns and falls back to the default icon bitmap. -/
theorem claimC8_witness :
    setPosition examplePolicy 0 5 5 (initialState examplePolicy) = initialState examplePolicy ∧
    Ev.warnMissingIcon missingIconState.requestedPointerType ∈
      newEvents missingIconState (updatePointerLocked examplePolicy 0 missingIconState) ∧
    Ev.spriteIcon missingIconState.pointerSprite missingIconState.pointerIcon ∈
      newEvents missingIconState (updatePointerLocked examplePolicy 0 missingIconState) := by
  refine ⟨?_, ?_, ?_⟩
  · exact (claimC8_errorHandling examplePolicy).1 0 5 5 (initialState examplePolicy) rfl
  · exact ((claimC8_errorHandling examplePolicy).2.2.2.2.2 0 missingIconState rfl rfl rfl
      (by decide) rfl).1
  · exact ((claimC8_errorHandling examplePolicy).2.2.2.2.2 0 missingIconState rfl rfl rfl
      (by decide) rfl).2
